import Mathlib

/-!
# Verification of the ai_news pipeline against its specification

Shallow embedding of the parts of the `ai_news` repository that the
verified claims are about:

* `src/src/ai/ai_analyzer.py`      — Impact Analyzer (single + batch paths)
* `src/src/ai/importance_analyzer.py` — Importance Scorer parsing
* `src/src/ai/deep_analyzer.py`    — Deep Analyzer (gate, search loop, score adjustment)
* `src/src/ai/ai_tools/baidu_search.py` — Search adapter
* `src/src/utils/database.py`      — Store (save / dedup probe)
* `src/src/collectors/news_collector.py` — ingestion dedup filter
* `src/src/scheduler.py`           — execution-history ring
* `src/src/email_sender.py`        — HTML report sections

Modelling conventions:
* Python floats are embedded as `ℚ` (every score produced by the code is an
  exact decimal), Python ints as `ℤ`, strings as `String`.
* External collaborators (the JSON decoder `json.loads`, the HTTP layer, the
  LLM endpoint, `urllib.parse.quote`, host float formatting, `hash`, `md5`,
  wall-clock timestamps) are passed in as explicit oracle parameters, so every
  function is a pure function of its inputs and its environment.
* Exceptions are embedded as `Except`; a Python `try/except` that swallows the
  error becomes a `match` on the `Except` value.
* Side effects that the claims talk about (API requests, waits, searches) are
  returned as explicit effect traces.
-/

set_option maxRecDepth 4000

namespace AiNews

/-- Python's substring test `needle in haystack`. -/
def substrMem (needle haystack : String) : Bool :=
  haystack.data.tails.any (fun t => needle.data.isPrefixOf t)

/-- Python `str.strip()` (drop leading and trailing whitespace). -/
def pyStrip (s : String) : String :=
  String.mk ((s.data.dropWhile Char.isWhitespace).reverse.dropWhile Char.isWhitespace).reverse

/-- Split a character list on a separator character (Python `str.split(sep)`
for a one-character separator). -/
def splitOnChar (sep : Char) : List Char → List (List Char)
  | [] => [[]]
  | c :: cs =>
    let r := splitOnChar sep cs
    if c = sep then [] :: r
    else
      match r with
      | a :: rest => (c :: a) :: rest
      | [] => [[c]]

/-- Python `s.split("\n")`. -/
def pyLines (s : String) : List String := (splitOnChar '\n' s.data).map String.mk

/-- Python `s.startswith(p)`. -/
def pyStartsWith (p s : String) : Bool := p.data.isPrefixOf s.data

/-- Python `str.lower()` (ASCII case folding; all the keywords the code
lowercases around are Chinese and unaffected). -/
def pyLower (s : String) : String := String.mk (s.data.map Char.toLower)

/-- Stable insertion into a descending-by-key list: the new element goes
after every element of equal or larger key. -/
def insertByDesc (key : α → ℚ) (x : α) : List α → List α
  | [] => [x]
  | y :: ys => if key y < key x then x :: y :: ys else y :: insertByDesc key x ys

/-- Stable descending sort by a rational key — the semantics of Python's
`list.sort(key=…, reverse=True)` / `sorted(key=…, reverse=True)`. -/
def sortByDesc (key : α → ℚ) (l : List α) : List α :=
  l.foldl (fun acc x => insertByDesc key x acc) []

/-- Python `max(0, min(100, x))` on floats (`ℚ`). -/
def clampQ (x : ℚ) : ℚ := max 0 (min 100 x)

/-- Python `max(0, min(100, x))` on ints (`ℤ`). -/
def clampZ (x : ℤ) : ℤ := max 0 (min 100 x)

/-- Python string slicing `s[:n]` (the first `n` characters). -/
def strTake (s : String) (n : ℕ) : String := String.mk (s.data.take n)

/-- `database.NewsItem` (`src/src/utils/database.py`).  The storage timestamp
fields (`publish_time`, `created_at`, `updated_at`) are wall-clock values that
none of the verified claims inspect and are omitted. -/
structure NewsItem where
  id : String := ""
  title : String := ""
  content : String := ""
  source : String := ""
  url : String := ""
  category : String := ""
  keywords : List String := []
  importance_score : ℤ := 0
  importance_reasoning : String := ""
  importance_factors : List String := []
  impact_degree : String := ""
deriving Repr, DecidableEq

/-- `ai_analyzer.AnalysisResult`.  `analysis_time` is `datetime.now()` and is
not inspected by any claim; it is omitted. -/
structure AnalysisResult where
  news_id : String
  impact_score : ℚ
  summary : String
deriving Repr, DecidableEq

namespace AIAnalyzer

/-- The value found under `"impact_score"` in a decoded JSON object: absent,
a number, a value on which `float()` raises `ValueError` (a non-numeric
string), or a value on which `float()` raises `TypeError` (`null`, a list or
an object). -/
inductive JsonNumField
  | absent
  | num (q : ℚ)
  | notNumValueError
  | notNumTypeError
deriving Repr, DecidableEq

/-- The exceptions the parse `try` block can raise.  The `except` tuple at
`ai_analyzer.py:734` lists `(json.JSONDecodeError, ValueError, KeyError)`;
`TypeError` is not in it. -/
inductive PyExc
  | jsonDecodeError
  | valueError
  | typeError
deriving Repr, DecidableEq

/-- Whether an exception is caught by the except tuple
`(json.JSONDecodeError, ValueError, KeyError)` of
`_parse_analysis_response` (`ai_analyzer.py:734`). -/
def PyExc.caughtByParse : PyExc → Bool
  | .jsonDecodeError => true
  | .valueError => true
  | .typeError => false

/-- The fields of the decoded JSON object that
`AIAnalyzer._parse_analysis_response` reads. -/
structure ParsedJson where
  impact_score : JsonNumField
  summary : Option String
deriving Repr, DecidableEq

/-- Oracle for `json.loads`: `none` models `JSONDecodeError`. -/
abbrev JsonOracle := String → Option ParsedJson

/-- The span Python computes with `start = response.find("{")`,
`end = response.rfind("}") + 1`, `response[start:end]`, or `none` when
`start == -1 or end == 0` (the `ValueError` branch). -/
def jsonSpan (chars : List Char) : Option (List Char) :=
  match chars.findIdx? (· = '{'), chars.reverse.findIdx? (· = '}') with
  | some s, some revE =>
      let e := chars.length - 1 - revE
      some ((chars.drop s).take (e + 1 - s))
  | _, _ => none

/-- The `try` block of `AIAnalyzer._parse_analysis_response`
(`ai_analyzer.py:698-733`): extract the `{…}` span, decode it, convert and
clamp `impact_score`.  An `Except.error` is a raised exception: the explicit
`raise ValueError` when no braces are found, `JSONDecodeError` from
`json.loads`, `ValueError` or `TypeError` from `float()`. -/
def parse_analysis_response_try (jp : JsonOracle) (news_id response : String) :
    Except PyExc AnalysisResult :=
  let r := pyStrip response
  match jsonSpan r.data with
  | none => .error .valueError
  | some span =>
    match jp (String.mk span) with
    | none => .error .jsonDecodeError
    | some d =>
      match d.impact_score with
      | .notNumValueError => .error .valueError
      | .notNumTypeError => .error .typeError
      | .num q => .ok ⟨news_id, clampQ q, d.summary.getD ""⟩
      | .absent => .ok ⟨news_id, clampQ 0, d.summary.getD ""⟩

/-- `AIAnalyzer._create_fallback_result` (`ai_analyzer.py:738-754`). -/
def create_fallback_result (news_id _response : String) : AnalysisResult :=
  ⟨news_id, 0, "AI解析失败，使用默认分析结果"⟩

/-- `AIAnalyzer._parse_analysis_response` (`ai_analyzer.py:698-736`): the
`except (json.JSONDecodeError, ValueError, KeyError)` clause catches the
decode and `ValueError` failures and returns the fallback result; a
`TypeError` from `float()` (an `impact_score` of `null`, a list or an
object) is not in the tuple and propagates to the caller
(`Except.error`). -/
def parse_analysis_response (jp : JsonOracle) (news_id response : String) :
    Except PyExc AnalysisResult :=
  match parse_analysis_response_try jp news_id response with
  | .ok r => .ok r
  | .error .jsonDecodeError => .ok (create_fallback_result news_id response)
  | .error .valueError => .ok (create_fallback_result news_id response)
  | .error .typeError => .error .typeError

/-- `AIAnalyzer._error_fallback_analysis` (`ai_analyzer.py:800-815`). -/
def error_fallback_analysis (news_item : NewsItem) : AnalysisResult :=
  ⟨news_item.id, 0, "分析过程中出现错误，无法生成有效分析"⟩

/-- Sector/sentiment keyword lists of `AIAnalyzer._mock_analysis`. -/
def positive_words : List String := ["上涨", "增长", "利好", "突破", "创新", "成功", "盈利"]

def negative_words : List String := ["下跌", "亏损", "风险", "危机", "失败", "暴跌", "问题"]

/-- `AIAnalyzer._mock_analysis` (`ai_analyzer.py:756-798`), the keyword-rule
analysis used when no API client is available.  `f"{title} {content}".lower()`
is embedded with `pyLower` (a no-op on the Chinese keywords). -/
def mock_analysis (news_item : NewsItem) : AnalysisResult :=
  let title_content := pyLower (news_item.title ++ " " ++ news_item.content)
  let positive_score : ℤ :=
    ((positive_words.filter (fun w => substrMem w title_content)).length : ℤ)
  let negative_score : ℤ :=
    ((negative_words.filter (fun w => substrMem w title_content)).length : ℤ)
  let impact_score : ℤ :=
    if positive_score > negative_score then min (positive_score * 15) 80
    else if negative_score > positive_score then max (100 - negative_score * 15) 20
    else 50
  ⟨news_item.id, (impact_score : ℚ),
    "基于关键词分析，新闻对A股市场有" ++ toString impact_score ++ "分的影响"⟩

/-- One effect of the synchronous single-item path: an outbound chat request
(model name, timeout seconds) or a backoff wait. -/
inductive ApiEffect
  | request (model : String) (timeout : ℕ)
  | wait (seconds : ℚ)
deriving Repr, DecidableEq

/-- The configuration fields of the single-item path
(`ai_analysis.deepseek` + `ai_analysis.analysis_params`). -/
structure Config where
  model : String := "deepseek-chat"
  fallback_model : String := "deepseek-chat"
  timeout : ℕ := 30
  fallback_timeout : ℕ := 30
  batch_size : ℕ := 20
deriving Repr

/-- Environment of one `analyze_news` call: the outcomes of the primary and
fallback chat-completion requests (`Except` = the call raised; the carried
string is the exception text, e.g. an HTTP non-2xx error). -/
structure SyncEnv where
  primary : Except String String
  fallback : Except String String
deriving Repr

/-- `AIAnalyzer._call_deepseek_api` (`ai_analyzer.py:340-432`): issues exactly
one request against the primary model with `analysis_params.timeout`. -/
def call_deepseek_api (cfg : Config) (env : SyncEnv) :
    Except String String × List ApiEffect :=
  (env.primary, [.request cfg.model cfg.timeout])

/-- `AIAnalyzer._call_deepseek_api_fallback` (`ai_analyzer.py:434-492`):
exactly one request against the fallback model with
`analysis_params.fallback_timeout`. -/
def call_deepseek_api_fallback (cfg : Config) (env : SyncEnv) :
    Except String String × List ApiEffect :=
  (env.fallback, [.request cfg.fallback_model cfg.fallback_timeout])

/-- The fallback half of `AIAnalyzer.analyze_news` (`ai_analyzer.py:233-241`):
one request against the fallback model, parsed; any exception from the call
or from the parse (a propagated `TypeError` included) reaches the outer
`except` and yields the error-fallback result. -/
def analyze_news_fallback_path (cfg : Config) (jp : JsonOracle) (env : SyncEnv)
    (news_item : NewsItem) (t₁ : List ApiEffect) : AnalysisResult × List ApiEffect :=
  match call_deepseek_api_fallback cfg env with
  | (.ok response, t₂) =>
    match parse_analysis_response jp news_item.id response with
    | .ok result => (result, t₁ ++ t₂)
    | .error _ => (error_fallback_analysis news_item, t₁ ++ t₂)
  | (.error _, t₂) => (error_fallback_analysis news_item, t₁ ++ t₂)

/-- `AIAnalyzer.analyze_news` (`ai_analyzer.py:208-246`), with the API client
available.  The inner `except Exception` covers the primary request *and* the
primary parse — so a `TypeError` escaping `_parse_analysis_response` also
routes to the fallback model — and the outer `except` turns any fallback-path
exception into the error-fallback result. -/
def analyze_news (cfg : Config) (jp : JsonOracle) (env : SyncEnv)
    (news_item : NewsItem) : AnalysisResult × List ApiEffect :=
  match call_deepseek_api cfg env with
  | (.ok response, t₁) =>
    match parse_analysis_response jp news_item.id response with
    | .ok result => (result, t₁)
    | .error _ => analyze_news_fallback_path cfg jp env news_item t₁
  | (.error _, t₁) => analyze_news_fallback_path cfg jp env news_item t₁

/-- `AIAnalyzer.batch_analyze` (`ai_analyzer.py:260-304`): a serial loop over
the items; `analyze_news` handles its own errors, so each item contributes
exactly one result (the `except: continue` branch is unreachable).  The
per-item DB write and the inter-batch `time.sleep` are effect-free here. -/
def batch_analyze (cfg : Config) (jp : JsonOracle) (envOf : ℕ → SyncEnv) :
    List NewsItem → ℕ → List AnalysisResult
  | [], _ => []
  | x :: xs, i => (analyze_news cfg jp (envOf i) x).1 :: batch_analyze cfg jp envOf xs (i + 1)

/-- Environment of `async_batch_analyze`: per-item (global index) API call
outcome, whether the item's task surfaced an exception to `asyncio.gather`,
whether the async client is available, and whether a sub-batch `gather`
failed as a whole (indexed by the element offset of the sub-batch). -/
structure AsyncEnv where
  resp : ℕ → Except String String
  taskExc : ℕ → Bool
  clientUp : Bool
  gatherOk : ℕ → Bool

/-- `AIAnalyzer._async_analyze_news` (`ai_analyzer.py:498-575`): mock result
without a client; parse on success; the coroutine's broad
`except Exception` turns any error — timeout, HTTP, transport, and a
`TypeError` propagating out of the parse — into the error-fallback result,
so the coroutine itself never raises. -/
def async_analyze_news (jp : JsonOracle) (env : AsyncEnv) (i : ℕ)
    (news_item : NewsItem) : AnalysisResult :=
  if !env.clientUp then mock_analysis news_item
  else
    match env.resp i with
    | .ok response =>
      match parse_analysis_response jp news_item.id response with
      | .ok result => result
      | .error _ => error_fallback_analysis news_item
    | .error _ => error_fallback_analysis news_item

/-- The per-task result handling of one gathered sub-batch
(`ai_analyzer.py:624-634`): a task that delivered an exception is replaced in
place by `_error_fallback_analysis` of the matching input item. -/
def runBatchTasks (jp : JsonOracle) (env : AsyncEnv) :
    ℕ → List NewsItem → List AnalysisResult
  | _, [] => []
  | i, x :: xs =>
    (if env.taskExc i then error_fallback_analysis x
     else async_analyze_news jp env i x) :: runBatchTasks jp env (i + 1) xs

/-- The sub-batch loop of `AIAnalyzer.async_batch_analyze`
(`ai_analyzer.py:606-649`): slices of size `batch_size`; a failed `gather`
yields error-fallback results for every item of the slice. -/
def processBatches (cfg : Config) (jp : JsonOracle) (env : AsyncEnv)
    (offset : ℕ) (l : List NewsItem) : List AnalysisResult :=
  if h : l = [] then []
  else if hb : cfg.batch_size = 0 then []
  else
    (if env.gatherOk offset then runBatchTasks jp env offset (l.take cfg.batch_size)
     else (l.take cfg.batch_size).map error_fallback_analysis)
      ++ processBatches cfg jp env (offset + cfg.batch_size) (l.drop cfg.batch_size)
termination_by l.length
decreasing_by
  simp only [List.length_drop]
  have hl : 0 < l.length := List.length_pos.mpr h
  omega

/-- `AIAnalyzer.async_batch_analyze` (`ai_analyzer.py:577-660`). -/
def async_batch_analyze (cfg : Config) (jp : JsonOracle) (env : AsyncEnv)
    (news_list : List NewsItem) : List AnalysisResult :=
  if news_list = [] then [] else processBatches cfg jp env 0 news_list

end AIAnalyzer

namespace Baidu

/-- Outcome of the one HTTP GET issued by `BaiduSearchAPI.search`
(`baidu_search.py:39-132`): a transport failure / exception, or a page with an
HTTP status and a body.  Only the body's length reaches the tool's output, so
the body is abstracted to its character count. -/
inductive HttpOutcome
  | transportError
  | page (status : ℕ) (contentLength : ℕ)
deriving Repr, DecidableEq

/-- Environment of the search adapter: per-query HTTP outcome, the host's
`"{:.2f}"` rendering of the response time, and `urllib.parse.quote`. -/
structure Env where
  outcome : String → HttpOutcome
  respTime : String → String
  quote : String → String

/-- Status tag of `BaiduSearchAPI.search`'s result dict. -/
inductive SearchStatus
  | success
  | partialOk
deriving Repr, DecidableEq

def base_url : String := "https://www.baidu.com/s"

/-- `BaiduSearchAPI.search` (`baidu_search.py:39-132`): `none` on transport
error or non-200 status; `"success"` iff the page body exceeds 10000
characters, else `"partial"`.  The returned pair carries the status tag and
the `content_length` field. -/
def api_search (env : Env) (query : String) : Option (SearchStatus × ℕ) :=
  match env.outcome query with
  | .transportError => none
  | .page status contentLength =>
    if status = 200 then
      some (if 10000 < contentLength then .success else .partialOk, contentLength)
    else none

/-- `BaiduSearchAPI.simple_search` (`baidu_search.py:134-157`). -/
def simple_search (env : Env) (query : String) : String :=
  "百度搜索: " ++ query ++ "\n搜索链接: " ++ base_url ++ "?wd=" ++ env.quote query
    ++ "\n状态: 链接生成成功"

/-- The `search_url` field set by `BaiduSearchAPI.search`. -/
def search_url (query : String) : String := base_url ++ "?wd=" ++ query

/-- `baidu_search_tool` (`baidu_search.py:162-237`): clamps `max_results` into
`[2,4]` and formats one of four result strings (success / partial /
link-only fallback / total failure). -/
def baidu_search_tool (env : Env) (query : String) (max_results : ℕ) : String :=
  let mr := max 2 (min max_results 4)
  match api_search env query with
  | some (.success, contentLength) =>
      "搜索结果摘要：\n关键词：" ++ query ++ "\n搜索状态：成功\n结果数量：" ++
      toString mr ++ "条精选结果\n搜索链接：" ++ search_url query ++
      "\n内容长度：" ++ toString contentLength ++ "字符\n响应时间：" ++
      env.respTime query ++ "秒\n\n搜索总结：成功从百度获取到关于\x27" ++ query ++
      "\x27的最新搜索结果，已优化为" ++ toString mr ++
      "条高质量结果。搜索结果包含最新相关信息，适合进行深度分析。\n\n建议：基于获取的搜索结果，可以提供关于\x27" ++
      query ++ "\x27的最新动态和深度分析。"
  | some (.partialOk, _) =>
      "搜索结果摘要：\n关键词：" ++ query ++ "\n搜索状态：部分成功\n结果数量：" ++
      toString mr ++ "条（部分可用）\n搜索链接：" ++ search_url query ++
      "\n\n搜索总结：搜索请求已处理，获得部分结果。建议基于现有信息进行分析，如需更多信息可参考搜索链接。"
  | none =>
      "搜索结果摘要：\n关键词：" ++ query ++
      "\n搜索状态：生成搜索链接成功\n结果数量：基础搜索链接\n\n" ++
      simple_search env query ++ "\n\n建议：可通过搜索链接查看\x27" ++ query ++
      "\x27的最新百度搜索结果。"

end Baidu

/-- `deep_analyzer.DeepAnalysisResult`.  `analysis_time` is `datetime.now()`
and is omitted. -/
structure DeepAnalysisResult where
  news_id : String
  title : String
  original_score : ℤ
  search_keywords : List String
  search_results_summary : String
  deep_analysis_report : String
  adjusted_score : ℤ
  search_success : Bool
  model_used : String
deriving Repr, DecidableEq

namespace DeepAnalyzer

/-- The `deep_analysis` configuration block read by `DeepAnalyzer.__init__`
(`deep_analyzer.py:72-85`), with its source defaults. -/
structure Config where
  enabled : Bool := true
  score_threshold : ℤ := 70
  max_search_rounds : ℕ := 3
  evidence_threshold : ℕ := 2
  max_evidence_kept : ℕ := 5
  report_max_length : ℕ := 200
  enable_score_adjustment : Bool := true
  model : String := "deepseek/deepseek-chat-v3.1"
deriving Repr

/-- External effects of one deep-analysis run: an LLM chat request or a web
search for a query. -/
inductive Effect
  | llmCall
  | search (query : String)
deriving Repr, DecidableEq

/-- Environment of one deep-analysis run: outcome of the query-planning LLM
call, outcome of the synthesis LLM call, the search adapter environment, and
the host's `"{:.1f}"` rendering used in evidence summaries. -/
structure Env where
  planResp : Except String String
  reportResp : Except String String
  baidu : Baidu.Env
  fmt1 : ℚ → String

/-- `DeepAnalyzer.should_analyze` (`deep_analyzer.py:122-138`).  The
`importance_score is None` guard is vacuous here because the embedding types
the score as `ℤ` (the `NewsItem` constructor always sets it). -/
def should_analyze (cfg : Config) (news_item : NewsItem) : Bool :=
  cfg.enabled && decide (cfg.score_threshold ≤ news_item.importance_score)

/-- `DeepAnalyzer._create_skip_result` (`deep_analyzer.py:683-696`).  The
`or f"skip_{...}"` id fallback only fires for `id == ""` and needs the clock;
it is kept as the literal branch with the clock value abstracted away by the
caller never inspecting it in any claim. -/
def create_skip_result (news_item : NewsItem) : DeepAnalysisResult :=
  { news_id := news_item.id
    title := news_item.title
    original_score := news_item.importance_score
    search_keywords := []
    search_results_summary := "未触发深度分析条件"
    deep_analysis_report := "该新闻重要性分数未达到深度分析阈值"
    adjusted_score := news_item.importance_score
    search_success := false
    model_used := "skip" }

/-- `DeepAnalyzer._create_error_result` (`deep_analyzer.py:698-711`). -/
def create_error_result (news_item : NewsItem) (error_msg : String) :
    DeepAnalysisResult :=
  { news_id := news_item.id
    title := news_item.title
    original_score := news_item.importance_score
    search_keywords := []
    search_results_summary := "分析过程出错: " ++ error_msg
    deep_analysis_report := "由于技术问题，无法完成深度分析"
    adjusted_score := news_item.importance_score
    search_success := false
    model_used := "error" }

/-- One line of `DeepAnalyzer._parse_search_queries` (`deep_analyzer.py:348-378`):
strip a leading `^\d+\.?\s*` numbering. -/
def stripNumbering (line : String) : String :=
  let cs := line.data
  let digits := cs.takeWhile (·.isDigit)
  if digits.isEmpty then line
  else
    let rest := cs.dropWhile (·.isDigit)
    let rest := match rest with
      | '.' :: r => r
      | r => r
    String.mk (rest.dropWhile (·.isWhitespace))

/-- `DeepAnalyzer._parse_search_queries` (`deep_analyzer.py:348-378`): numbered
lines are stripped of their numbering; unnumbered lines are kept unless they
start with an instruction word; entries shorter than 5 characters are
dropped. -/
def parse_search_queries (cfg : Config) (response : String) : List String :=
  let lines := (pyLines response).map pyStrip
  let pick : String → Option String := fun line =>
    if line.data.head?.elim false (·.isDigit) then
      let q := stripNumbering line
      if q ≠ "" ∧ 5 ≤ q.length then some q else none
    else if line ≠ "" ∧
        ¬(pyStartsWith "要求" line ∨ pyStartsWith "请" line ∨ pyStartsWith "注意" line ∨
          pyStartsWith "格式" line) then
      if 5 ≤ line.length then some line else none
    else none
  (lines.filterMap pick).take cfg.max_search_rounds

/-- `DeepAnalyzer._generate_search_queries` (`deep_analyzer.py:292-346`): one
LLM call, parse the numbered list, truncate to `max_search_rounds`; empty
parse falls back to `title[:25] + " 最新消息"`, an exception (the LLM call
raising) to `title[:25] + " 相关信息"`. -/
def generate_search_queries (cfg : Config) (env : Env) (news_item : NewsItem) :
    List String :=
  match env.planResp with
  | .error _ => [strTake news_item.title 25 ++ " 相关信息"]
  | .ok response =>
    let queries := (parse_search_queries cfg response).take cfg.max_search_rounds
    if queries = [] then [strTake news_item.title 25 ++ " 最新消息"] else queries

/-- `DeepAnalyzer._perform_single_search` (`deep_analyzer.py:382-406`): calls
`baidu_search_tool` and classifies the search as successful iff the returned
text is truthy (non-empty), does not contain `"搜索失败"`, and is longer than
50 characters. -/
def perform_single_search (env : Env) (query : String) : String × Bool :=
  let search_result := Baidu.baidu_search_tool env.baidu query 3
  if search_result ≠ "" ∧ ¬substrMem "搜索失败" search_result ∧
      50 < search_result.length then
    (search_result, true)
  else
    ("查询\x27" ++ query ++ "\x27未获取到有效结果", false)

/-- One accumulated search record (`{query, result, round}`). -/
structure SearchRecord where
  query : String
  result : String
  round : ℕ
deriving Repr, DecidableEq

/-- The sequential search loop of `DeepAnalyzer._analyze_with_ai_self_search`
(`deep_analyzer.py:184-205`): execute queries in order, record successes, and
break early once `evidence_threshold` successes have accumulated. -/
def searchLoop (cfg : Config) (env : Env) :
    List String → ℕ → ℕ → List SearchRecord × ℕ × List Effect
  | [], _, successes => ([], successes, [])
  | q :: qs, i, successes =>
    let (result, ok) := perform_single_search env q
    let (successes', rec?) :=
      if ok then (successes + 1, [⟨q, result, i + 1⟩]) else (successes, [])
    if cfg.evidence_threshold ≤ successes' then (rec?, successes', [.search q])
    else
      let (recs, total, effs) := searchLoop cfg env qs (i + 1) successes'
      (rec? ++ recs, total, .search q :: effs)

/-- Keyword lists of `DeepAnalyzer._calculate_evidence_score`
(`deep_analyzer.py:475-539`). -/
def authority_keywords : List String :=
  ["官方", "政府", "央行", "证监会", "银保监会", "发改委", "财政部", "商务部", "新华社", "人民日报"]

def info_keywords : List String :=
  ["数据", "统计", "报告", "分析", "预测", "影响", "政策", "措施", "方案"]

def time_keywords : List String :=
  ["最新", "今日", "刚刚", "今年", "近期", "目前", "现在", "2024", "2025"]

/-- The authority accumulation of `_calculate_evidence_score`: `+0.5` per
authority keyword present, with an early break at `3`; equal to
`min(0.5 * count, 3)` plus the half-step the break allows (the loop breaks
only after the sum reached 3, so the final `min(…,3)` makes the two equal). -/
def authorityScore (result : String) : ℚ :=
  min (((authority_keywords.filter (fun k => substrMem k result)).length : ℚ) * (1/2)) 3

/-- `DeepAnalyzer._calculate_evidence_score` (`deep_analyzer.py:475-539`):
quality score in `[0,10]` from authority, title-token relevance, info
density, freshness and length sanity.  `news_item.title` iterated in Python
yields its characters; `len(word) >= 2` is false for every 1-character
string, so the relevance term is always `min(0, 2) = 0` — kept as the
faithful computation over characters. -/
def calculate_evidence_score (result : String) (_query : String)
    (news_item : NewsItem) : ℚ :=
  let title_words : List String :=
    (news_item.title.data.map (fun c => String.mk [c])).filter (fun w => 2 ≤ w.length)
  let relevance_score : ℚ :=
    (((title_words.take 5).filter (fun w => substrMem w result)).length : ℚ) * (2/5)
  let info_score : ℚ :=
    (((info_keywords.filter (fun k => substrMem k result)).length : ℚ)) * (3/10)
  let time_score : ℚ :=
    (((time_keywords.filter (fun k => substrMem k result)).length : ℚ)) * (2/5)
  let length := (result.length : ℚ)
  let length_score : ℚ :=
    if 100 ≤ length ∧ length ≤ 2000 then 1
    else if (50 ≤ length ∧ length < 100) ∨ (2000 < length ∧ length ≤ 5000) then 1/2
    else 1/10
  min (authorityScore result + min relevance_score 2 + min info_score 2 +
    min time_score 2 + length_score) 10

/-- A scored evidence entry. -/
structure ScoredEvidence where
  query : String
  result : String
  round : ℕ
  score : ℚ
  length : ℕ
deriving Repr, DecidableEq

/-- `DeepAnalyzer._create_evidence_summary` (`deep_analyzer.py:541-572`):
excerpts capped at 200 characters, joined with blank lines; scores rendered
by the host's `"{:.1f}"` formatting (`fmt1`). -/
def create_evidence_summary (fmt1 : ℚ → String) (top_evidence : List ScoredEvidence) :
    String :=
  if top_evidence = [] then "未获取到有效证据"
  else
    String.intercalate "\n\n" <|
      (top_evidence.enum.map fun (i, e) =>
        let excerpt :=
          if 200 < e.result.length then strTake e.result 200 ++ "..." else e.result
        "证据" ++ toString (i + 1) ++ "[查询: " ++ e.query ++ "][评分: " ++
          fmt1 e.score ++ "]: " ++ excerpt)

/-- The evidence dictionary built by
`DeepAnalyzer._evaluate_and_summarize_evidence` (`deep_analyzer.py:408-473`). -/
structure EvidenceSummary where
  summary : String
  top_evidence : List ScoredEvidence
  evidence_count : ℕ
  avg_score : ℚ
deriving Repr, DecidableEq

/-- `DeepAnalyzer._evaluate_and_summarize_evidence` (`deep_analyzer.py:408-473`):
score every search result, keep the `max_evidence_kept` best (stable
descending sort, as Python's `sort(key=…, reverse=True)`), summarize, and
average over all scored entries. -/
def evaluate_and_summarize_evidence (cfg : Config) (env : Env)
    (search_results : List SearchRecord) (news_item : NewsItem) : EvidenceSummary :=
  if search_results = [] then
    { summary := "未获取到有效搜索结果", top_evidence := [], evidence_count := 0,
      avg_score := 0 }
  else
    let scored_evidence : List ScoredEvidence := search_results.map fun r =>
      { query := r.query, result := r.result, round := r.round
        score := calculate_evidence_score r.result r.query news_item
        length := r.result.length }
    let sorted := sortByDesc (·.score) scored_evidence
    let top_evidence := sorted.take cfg.max_evidence_kept
    { summary := create_evidence_summary env.fmt1 top_evidence
      top_evidence := top_evidence
      evidence_count := search_results.length
      avg_score := (scored_evidence.map (·.score)).sum / (scored_evidence.length : ℚ) }

/-- `DeepAnalyzer._parse_analysis_response` (`deep_analyzer.py:660-677`):
strip whitespace, then remove the first matching boilerplate prefix. -/
def parse_deep_analysis_response (response : String) : String :=
  let analysis := pyStrip response
  let rec strip : List String → String
    | [] => analysis
    | p :: ps => if pyStartsWith p analysis then pyStrip (analysis.drop p.length) else strip ps
  strip ["深度分析报告：", "分析报告：", "报告：", "分析："]

/-- `DeepAnalyzer._generate_evidence_based_analysis` (`deep_analyzer.py:574-600`):
one LLM call; failure propagates as an exception; the parsed report is capped
at `report_max_length` characters (`[:max-3] + "..."`). -/
def generate_evidence_based_analysis (cfg : Config) (env : Env) :
    Except String String :=
  match env.reportResp with
  | .error e => .error ("生成证据基于深度分析报告失败: " ++ e)
  | .ok response =>
    let analysis := parse_deep_analysis_response response
    .ok <| if cfg.report_max_length < analysis.length then
        strTake analysis (cfg.report_max_length - 3) ++ "..."
      else analysis

/-- Keyword lists of `DeepAnalyzer._adjust_score_with_evidence`
(`deep_analyzer.py:713-775`). -/
def high_impact_keywords : List String :=
  ["重大", "突破", "关键", "显著", "急剧", "暴跌", "暴涨", "重要"]

def market_keywords : List String :=
  ["政策", "利率", "汇率", "央行", "监管", "改革", "风险"]

def adjust_authority_keywords : List String :=
  ["央行", "银保监会", "证监会", "政府", "官方", "新华社", "人民日报"]

/-- Number of keywords of `kws` occurring in `text`
(`sum(1 for keyword in kws if keyword in text)`). -/
def keywordCount (kws : List String) (text : String) : ℤ :=
  ((kws.filter (fun k => substrMem k text)).length : ℤ)

/-- `DeepAnalyzer._adjust_score_with_evidence` (`deep_analyzer.py:713-775`),
the sequential accumulation exactly as the source performs it. -/
def adjust_score_with_evidence (news_item : NewsItem) (deep_analysis : String)
    (evidence_summary : EvidenceSummary) : ℤ :=
  let original_score := news_item.importance_score
  let adjustment : ℤ := 0
  let avg_evidence_score := evidence_summary.avg_score
  let evidence_count := evidence_summary.evidence_count
  let adjustment := adjustment +
    (if 7 ≤ avg_evidence_score then 10
     else if 5 ≤ avg_evidence_score then 6
     else if 3 ≤ avg_evidence_score then 3 else 0)
  let adjustment := adjustment +
    (if 3 ≤ evidence_count then 3 else if 2 ≤ evidence_count then 2 else 0)
  let analysis_text := pyLower deep_analysis
  let adjustment := adjustment + min (keywordCount high_impact_keywords analysis_text * 2) 6
  let adjustment := adjustment + min (keywordCount market_keywords analysis_text * 1) 4
  let evidence_text := evidence_summary.summary
  let adjustment := adjustment + min (keywordCount adjust_authority_keywords evidence_text * 1) 5
  min 100 (max 0 (original_score + adjustment))

/-- `DeepAnalyzer._analyze_with_ai_self_search` (`deep_analyzer.py:168-240`):
plan queries, run the search loop, evaluate evidence, synthesize the report
(whose failure propagates), adjust the score, and assemble the result.  The
effect trace records the planning LLM call, every executed search and — when
reached — the synthesis LLM call. -/
def analyze_with_ai_self_search (cfg : Config) (env : Env) (news_item : NewsItem) :
    Except String DeepAnalysisResult × List Effect :=
  let search_queries := generate_search_queries cfg env news_item
  let (all_search_results, successful_searches, searchEffs) :=
    searchLoop cfg env search_queries 0 0
  let evidence_summary :=
    evaluate_and_summarize_evidence cfg env all_search_results news_item
  let effs := Effect.llmCall :: searchEffs
  match generate_evidence_based_analysis cfg env with
  | .error e => (.error e, effs ++ [Effect.llmCall])
  | .ok deep_report =>
    let adjusted_score :=
      if cfg.enable_score_adjustment then
        adjust_score_with_evidence news_item deep_report evidence_summary
      else news_item.importance_score
    (.ok
      { news_id := news_item.id
        title := news_item.title
        original_score := news_item.importance_score
        search_keywords := all_search_results.map (·.query)
        search_results_summary := evidence_summary.summary
        deep_analysis_report := deep_report
        adjusted_score := adjusted_score
        search_success := 0 < successful_searches
        model_used := cfg.model }, effs ++ [Effect.llmCall])

/-- `DeepAnalyzer.analyze_news_deep` (`deep_analyzer.py:140-166`), paired with
its external-effect trace.  The client is initialized (the constructor raises
otherwise), so the `client is None` branch is not taken. -/
def analyze_news_deep (cfg : Config) (env : Env) (news_item : NewsItem) :
    DeepAnalysisResult × List Effect :=
  if ¬should_analyze cfg news_item then (create_skip_result news_item, [])
  else
    match analyze_with_ai_self_search cfg env news_item with
    | (.ok r, effs) => (r, effs)
    | (.error e, effs) => (create_error_result news_item e, effs)

end DeepAnalyzer

namespace ImportanceAnalyzer

/-- The value found under `"importance_score"` in a decoded importance JSON:
absent (default 50 used), present but not convertible by `int()` (whether
that raises `ValueError` or `TypeError` is immaterial here: this parser's
`except Exception` is broad and catches both), or an integer. -/
inductive JsonIntField
  | absent
  | notInt
  | num (n : ℤ)
deriving Repr, DecidableEq

/-- The fields of the decoded JSON that
`ImportanceAnalyzer._parse_importance_result` reads. -/
structure ParsedJson where
  importance_score : JsonIntField
  reasoning : Option String
  key_factors : Option (List String)
deriving Repr, DecidableEq

/-- Oracle environment for the importance parser: `json.loads` (`none` =
`JSONDecodeError`) and the regex score extraction of `_parse_text_result`
(`none` = no `\d+分` / `评分: \d+` / … match). -/
structure ParseEnv where
  jp : String → Option ParsedJson
  textScore : String → Option ℤ

/-- `importance_analyzer.ImportanceResult` (only the fields the claims
inspect; `analysis_time`/`model_used` carry clock and config values). -/
structure ImportanceResult where
  news_id : String
  title : String
  importance_score : ℤ
  reasoning : String
  key_factors : List String
deriving Repr, DecidableEq

/-- `ImportanceAnalyzer._parse_text_result` (`importance_analyzer.py:271-298`):
default score 50; a regex-extracted score is accepted only when it lies in
`[0,100]`. -/
def parse_text_result (env : ParseEnv) (response : String) : ℤ × String :=
  let score :=
    match env.textScore response with
    | some s => if 0 ≤ s ∧ s ≤ 100 then s else 50
    | none => 50
  (score, strTake response 500)

/-- Keyword lists of `ImportanceAnalyzer._mock_analysis`. -/
def mock_high_keywords : List String :=
  ["央行", "政策", "监管", "重大", "重要", "突发", "紧急", "暴跌", "暴涨", "停牌", "IPO"]

def mock_medium_keywords : List String :=
  ["财报", "业绩", "增长", "下跌", "上涨", "合作", "投资", "收购"]

/-- `ImportanceAnalyzer._mock_analysis` (`importance_analyzer.py:300-343`):
error mode scores 50; keyword mode scores `40 + 15·high + 8·medium` clamped
into `[20,80]`. -/
def mock_analysis (news_item : NewsItem) (error : Bool) : ImportanceResult :=
  if error then
    { news_id := news_item.id, title := news_item.title, importance_score := 50
      reasoning := "由于API调用失败，使用默认评分"
      key_factors := ["API错误", "默认评分"] }
  else
    let title := pyLower news_item.title
    let highs := mock_high_keywords.filter (fun k => substrMem k title)
    let meds := mock_medium_keywords.filter (fun k => substrMem k title)
    let score : ℤ := 40 + 15 * (highs.length : ℤ) + 8 * (meds.length : ℤ)
    let score := max 20 (min 80 score)
    let factors :=
      (highs.map (fun k => "包含高重要性关键词: " ++ k)) ++
      (meds.map (fun k => "包含中等重要性关键词: " ++ k))
    { news_id := news_item.id, title := news_item.title, importance_score := score
      reasoning := "基于标题关键词的模拟分析，评分为" ++ toString score ++ "分"
      key_factors := if factors = [] then ["标题分析", "模拟评分"] else factors }

/-- The match of Python's `re.search(r'\{.*\}', response, re.DOTALL)`
(`importance_analyzer.py:233`): the span from the first `{` through the last
`}` when that `}` comes after it, and no match otherwise (in particular when
the only `}` precedes the first `{`, where `AIAnalyzer`'s slice-based parser
would produce an empty slice instead). -/
def regexBraceSpan (chars : List Char) : Option (List Char) :=
  match chars.findIdx? (· = '{'), chars.reverse.findIdx? (· = '}') with
  | some s, some revE =>
    let e := chars.length - 1 - revE
    if s < e then some ((chars.drop s).take (e + 1 - s)) else none
  | _, _ => none

/-- `ImportanceAnalyzer._parse_importance_result`
(`importance_analyzer.py:229-269`): regex `\{.*\}` (greedy, DOTALL) selects
the span from the first `{` to the last `}` after it; with no match,
`_parse_text_result` runs.  The score is clamped with
`max(0, min(100, …))`; any exception — a JSON decode failure or an `int()`
failure (the `except Exception` here is broad, unlike the impact parser's
tuple) — is caught and answered with the error mock (score 50). -/
def parse_importance_result (env : ParseEnv) (news_item : NewsItem)
    (response : String) : ImportanceResult :=
  let data? : Except Unit (ℤ × String × List String) :=
    match regexBraceSpan response.data with
    | some span =>
      match env.jp (String.mk span) with
      | none => .error ()
      | some d =>
        match d.importance_score with
        | .notInt => .error ()
        | .num n => .ok (n, d.reasoning.getD "AI分析过程", d.key_factors.getD [])
        | .absent => .ok (50, d.reasoning.getD "AI分析过程", d.key_factors.getD [])
    | none =>
      let (s, r) := parse_text_result env response
      .ok (s, r, ["AI文本分析"])
  match data? with
  | .error _ => mock_analysis news_item true
  | .ok (score, reasoning, key_factors) =>
    { news_id := news_item.id
      title := news_item.title
      importance_score := clampZ score
      reasoning := reasoning
      key_factors := key_factors.take 5 }

/-- `ImportanceAnalyzer.analyze_importance` (`importance_analyzer.py:97-126`):
mock without a client; with a client, parse the model response; an exception
from the call yields the error mock. -/
def analyze_importance (env : ParseEnv) (clientUp : Bool)
    (resp : Except String String) (news_item : NewsItem) : ImportanceResult :=
  if ¬clientUp then mock_analysis news_item false
  else
    match resp with
    | .ok r => parse_importance_result env news_item r
    | .error _ => mock_analysis news_item true

end ImportanceAnalyzer

namespace Store

/-- One row of the `news_items` table (`database.py:144-163`).  `keywords` and
`importance_factors` are serialized JSON text in SQLite; the claims never
decode them, so the embedding stores the lists themselves.  Timestamp columns
are omitted. -/
structure NewsRow where
  id : String
  title : String
  content : String
  source : String
  url : String
  category : String
  keywords : List String
  importance_score : ℤ
  importance_reasoning : String
  importance_factors : List String
  impact_degree : String
deriving Repr, DecidableEq

/-- One row of the `analysis_results` table (`database.py:166-177`); the
AUTOINCREMENT primary key is the row's position. -/
structure AnalysisRow where
  news_id : String
  impact_score : ℚ
  summary : String
deriving Repr, DecidableEq

/-- The two tables the verified claims touch. -/
structure DB where
  news_items : List NewsRow
  analysis_results : List AnalysisRow
deriving Repr, DecidableEq

def emptyDB : DB := ⟨[], []⟩

/-- Environment of a save call: Python's `hash` (used in generated ids) and
the per-item value of `int(datetime.now().timestamp())`. -/
structure SaveEnv where
  pyhash : String → ℤ
  ts : ℕ → ℕ

/-- The id generated when `news_item.id` is falsy
(`f"{source}_{hash(title + url)}_{int(datetime.now().timestamp())}"`,
`database.py:221-222`). -/
def genId (env : SaveEnv) (i : ℕ) (news_item : NewsItem) : String :=
  news_item.source ++ "_" ++ toString (env.pyhash (news_item.title ++ news_item.url)) ++
    "_" ++ toString (env.ts i)

/-- The row written for an item (`NewsItem.to_dict` + the INSERT column list). -/
def toRow (news_item : NewsItem) (id : String) : NewsRow :=
  { id := id, title := news_item.title, content := news_item.content
    source := news_item.source, url := news_item.url, category := news_item.category
    keywords := news_item.keywords, importance_score := news_item.importance_score
    importance_reasoning := news_item.importance_reasoning
    importance_factors := news_item.importance_factors
    impact_degree := news_item.impact_degree }

/-- SQLite `INSERT OR REPLACE` on a table whose only uniqueness constraint is
the `id` primary key: any row with the same id is deleted, the new row
inserted. -/
def upsert (rows : List NewsRow) (r : NewsRow) : List NewsRow :=
  rows.filter (fun x => x.id ≠ r.id) ++ [r]

/-- `DatabaseManager.save_news_item` (`database.py:206-258`) acting on one
item with its per-call clock value. -/
def save_news_item (env : SaveEnv) (i : ℕ) (db : DB) (news_item : NewsItem) : DB :=
  let id := if news_item.id = "" then genId env i news_item else news_item.id
  { db with news_items := upsert db.news_items (toRow news_item id) }

/-- The item loop of `DatabaseManager.save_news_items_batch`
(`database.py:276-314`), carrying the item index for the per-item clock. -/
def save_batch_go (env : SaveEnv) : ℕ → DB → List NewsItem → DB
  | _, db, [] => db
  | i, db, x :: xs => save_batch_go env (i + 1) (save_news_item env i db x) xs

/-- `DatabaseManager.save_news_items_batch` (`database.py:260-322`): the same
upsert per item, in order. -/
def save_news_items_batch (env : SaveEnv) (db : DB) (news_items : List NewsItem) :
    DB :=
  save_batch_go env 0 db news_items

/-- `AIAnalyzer._save_analysis_result` (`ai_analyzer.py:817-859`):
`INSERT OR REPLACE` into a table whose primary key is AUTOINCREMENT and never
conflicts, hence a plain append. -/
def save_analysis_result (db : DB) (result : AnalysisResult) : DB :=
  { db with analysis_results :=
      db.analysis_results ++ [⟨result.news_id, result.impact_score, result.summary⟩] }

/-- `DatabaseManager.check_news_exists` (`database.py:524-551`): with a truthy
url, `title = ? OR url = ?`; otherwise title only. -/
def check_news_exists (db : DB) (title : String) (url : String) : Bool :=
  if url ≠ "" then db.news_items.any (fun r => r.title = title ∨ r.url = url)
  else db.news_items.any (fun r => r.title = title)

end Store

namespace Collector

/-- `NewsCollector._deduplicate_news` (`news_collector.py:635-668`): drop
blank titles, drop in-batch repeats by md5 of the title, drop items whose
title or url is already stored.  `md5` is the hash oracle. -/
def deduplicate_news (md5 : String → String) (db : Store.DB) :
    List NewsItem → List String → List NewsItem
  | [], _ => []
  | news :: rest, seen_titles =>
    if pyStrip news.title = "" then deduplicate_news md5 db rest seen_titles
    else
      let title_hash := md5 news.title
      if seen_titles.contains title_hash then deduplicate_news md5 db rest seen_titles
      else if Store.check_news_exists db news.title news.url then
        deduplicate_news md5 db rest seen_titles
      else news :: deduplicate_news md5 db rest (title_hash :: seen_titles)

/-- The ingest save path (`news_collector.py:118-123`): dedup against the
current store, then `save_news_items_batch`. -/
def ingest (md5 : String → String) (env : Store.SaveEnv) (db : Store.DB)
    (all_news : List NewsItem) : Store.DB :=
  Store.save_news_items_batch env db (deduplicate_news md5 db all_news [])

end Collector

namespace Scheduler

/-- One `execution_history` entry (`scheduler.py:356-361`). -/
structure Event where
  timestamp : ℕ
  type : String
  success : Bool
  message : String
deriving Repr, DecidableEq

abbrev History := List Event

/-- `self.max_history_size = 100` (`scheduler.py:56`). -/
def max_history_size : ℕ := 100

/-- `TaskScheduler.record_event` (`scheduler.py:354-370`): append, then trim
to the last `max_history_size` entries (Python `history[-max:]`).  (The
source file has an indentation slip around `with self._lock:` at this spot;
the evident locking intent does not change the sequential semantics.) -/
def record_event (history : History) (e : Event) : History :=
  let h := history ++ [e]
  if max_history_size < h.length then h.drop (h.length - max_history_size) else h

/-- The history field written by `TaskScheduler.save_state`
(`scheduler.py:290`): only the last 50 entries (`history[-50:]`). -/
def save_state_history (history : History) : History :=
  history.drop (history.length - 50)

/-- The portion of the scheduler state the history claims concern: the
in-memory history and the on-disk state file (`none` = file absent). -/
structure State where
  history : History
  file : Option History
deriving Repr, DecidableEq

/-- The operations that append to or restore `execution_history`. -/
inductive Op
  | record (e : Event)
  | save
  | load
deriving Repr

/-- One scheduler step: `record_event`, `save_state` (writes the trimmed
history to the file) or `load_state` (restores the file's history; a missing
file leaves the default, `scheduler.py:327-336`). -/
def step (s : State) : Op → State
  | .record e => { s with history := record_event s.history e }
  | .save => { s with file := some (save_state_history s.history) }
  | .load =>
    match s.file with
    | some f => { s with history := f }
    | none => s

/-- The state after a sequence of operations. -/
def run (s : State) (ops : List Op) : State := ops.foldl step s

end Scheduler

namespace Email

/-- The "High impact" selection of `EmailSender._generate_html_report`
(`email_sender.py:318` and `595`): filter `|impact_score| > 10` in input
order, then render only the first 5 (`high_impact_results[:5]`). -/
def high_impact_section (analysis_results : List AnalysisResult) :
    List AnalysisResult :=
  ((analysis_results.filter (fun r => 10 < |r.impact_score|)).take 5)

/-- The "All news" ordering of `EmailSender._generate_html_report`
(`email_sender.py:315`): stable sort by `|impact_score|` descending. -/
def sorted_results (analysis_results : List AnalysisResult) :
    List AnalysisResult :=
  sortByDesc (fun r => |r.impact_score|) analysis_results

/-- Modelled from the spec: the claim's reading of the "High impact" section
— the items with `|impact_score| > 10` sorted by `|impact_score|`
descending, capped at 5. -/
def spec_high_impact_section (analysis_results : List AnalysisResult) :
    List AnalysisResult :=
  (sortByDesc (fun r => |r.impact_score|)
    (analysis_results.filter (fun r => 10 < |r.impact_score|))).take 5

end Email

end AiNews

namespace AiNews

/-! ## Specification-side definitions (for refinement comparisons)

Each `spec_…` definition below follows the words of a claim rather than the
source; the theorems compare them with the embedded source functions. -/

namespace AIAnalyzer

/-- Number of requests issued against a given model in a trace. -/
def countRequests (model : String) (trace : List ApiEffect) : ℕ :=
  (trace.filter (fun e => match e with
    | .request m _ => m = model
    | _ => false)).length

/-- The waits recorded in a trace. -/
def traceWaits (trace : List ApiEffect) : List ℚ :=
  trace.filterMap (fun e => match e with
    | .wait s => some s
    | _ => none)

/-- Modelled from the spec (claim C5): after the first attempt of a
single-item request fails, the client must wait between 1 and 30 seconds and
issue a second attempt against the same (primary) model. -/
def spec_retry_policy (cfg : Config) (trace : List ApiEffect) : Prop :=
  (∃ s ∈ traceWaits trace, 1 ≤ s ∧ s ≤ 30) ∧ 2 ≤ countRequests cfg.model trace

end AIAnalyzer

namespace DeepAnalyzer

/-- Modelled from the spec (claim C7): the evidence-quality bonus. -/
def spec_quality_bonus (avg : ℚ) : ℤ :=
  if 7 ≤ avg then 10 else if 5 ≤ avg then 6 else if 3 ≤ avg then 3 else 0

/-- Modelled from the spec (claim C7): the evidence-count bonus. -/
def spec_count_bonus (evidence_count : ℕ) : ℤ :=
  if 3 ≤ evidence_count then 3 else if 2 ≤ evidence_count then 2 else 0

/-- Modelled from the spec (claim C7): the report-content bonus
(+2 per high-impact keyword capped at 6, +1 per market keyword capped at 4). -/
def spec_report_bonus (report : String) : ℤ :=
  min (keywordCount high_impact_keywords (pyLower report) * 2) 6 +
    min (keywordCount market_keywords (pyLower report) * 1) 4

/-- Modelled from the spec (claim C7): the evidence-authority bonus
(+1 per authority keyword in the evidence summary, capped at 5). -/
def spec_authority_bonus (summary : String) : ℤ :=
  min (keywordCount adjust_authority_keywords summary * 1) 5

/-- Modelled from the spec (claim C7): original score plus the three additive
bonuses, clamped to `[0,100]`. -/
def spec_adjusted_score (news_item : NewsItem) (report : String)
    (evidence_summary : EvidenceSummary) : ℤ :=
  clampZ (news_item.importance_score +
    (spec_quality_bonus evidence_summary.avg_score +
     spec_count_bonus evidence_summary.evidence_count +
     spec_report_bonus report +
     spec_authority_bonus evidence_summary.summary))

end DeepAnalyzer

namespace Store

/-- All persisted scores lie in `[0,100]`. -/
def scores_in_range (db : DB) : Prop :=
  (∀ r ∈ db.news_items, 0 ≤ r.importance_score ∧ r.importance_score ≤ 100) ∧
  (∀ a ∈ db.analysis_results, 0 ≤ a.impact_score ∧ a.impact_score ≤ 100)

/-- Number of stored news rows with a given title. -/
def title_count (db : DB) (t : String) : ℕ :=
  (db.news_items.filter (fun r => r.title = t)).length

/-- Number of stored news rows with a given `(title, url)` pair. -/
def pair_count (db : DB) (t u : String) : ℕ :=
  (db.news_items.filter (fun r => r.title = t ∧ r.url = u)).length

end Store

/-! ## Concrete fixtures used by counterexamples and witnesses -/

/-- A JSON oracle on which every decode fails. -/
def jp0 : AIAnalyzer.JsonOracle := fun _ => none

/-- A JSON oracle decoding every span to an object whose `impact_score` is a
value on which `float()` raises `TypeError` (e.g. `null`). -/
def jpNull : AIAnalyzer.JsonOracle := fun _ => some ⟨.notNumTypeError, none⟩

/-- The response `{"impact_score": null}`. -/
def respNull : String := "\x7b\"impact_score\": null\x7d"

/-- Impact-analyzer configuration with distinct primary/fallback models. -/
def cfg5 : AIAnalyzer.Config :=
  { model := "deepseek-reasoner", fallback_model := "deepseek-chat",
    timeout := 30, fallback_timeout := 60, batch_size := 20 }

/-- A single-item environment whose primary request fails with an HTTP
non-2xx response and whose fallback request succeeds. -/
def env5 : AIAnalyzer.SyncEnv :=
  { primary := .error "Error code: 500", fallback := .ok "****" }

def item5 : NewsItem := { id := "news-1", title := "标题", content := "内容" }

/-- A search environment whose every query returns HTTP 200 with a short page
(below the 10000-character success threshold), i.e. a `"partial"` result. -/
def baiduPartialEnv : Baidu.Env :=
  { outcome := fun _ => .page 200 500, respTime := fun _ => "0.10", quote := id }

/-- A search environment whose every query fails in transport, producing the
link-only fallback text. -/
def baiduFailEnv : Baidu.Env :=
  { outcome := fun _ => .transportError, respTime := fun _ => "0.10", quote := id }

/-- A deep-analysis environment over the partial-search adapter: planning
yields two queries, synthesis yields a short report. -/
def deepPartialEnv : DeepAnalyzer.Env :=
  { planResp := .ok "1. 茅台最新业绩公告情况\n2. 白酒行业政策动向分析"
    reportResp := .ok "分析报告：核心影响有限"
    baidu := baiduPartialEnv
    fmt1 := fun _ => "1.5" }

/-- A deep-analysis environment over the failing search adapter. -/
def deepFailEnv : DeepAnalyzer.Env :=
  { planResp := .ok "1. 茅台最新业绩公告情况\n2. 白酒行业政策动向分析"
    reportResp := .ok "分析报告：核心影响有限"
    baidu := baiduFailEnv
    fmt1 := fun _ => "1.5" }

/-- A save environment: `hash ≡ 0`, the wall clock frozen at a given second. -/
def saveEnvAt (t : ℕ) : Store.SaveEnv := { pyhash := fun _ => 0, ts := fun _ => t }

/-- An item arriving from a feed: no id yet, fixed `(title, url)`. -/
def item4 : NewsItem := { title := "央行宣布降准", url := "http://example.com/a", source := "s" }

/-- The store after saving `item4` twice through `save_news_items_batch`, one
second apart. -/
def db4 : Store.DB :=
  Store.save_news_items_batch (saveEnvAt 2)
    (Store.save_news_items_batch (saveEnvAt 1) Store.emptyDB [item4]) [item4]

/-- Two analysis results whose input order disagrees with the
`|impact_score|`-descending order. -/
def results9 : List AnalysisResult :=
  [⟨"a", 11, "低"⟩, ⟨"b", 99, "高"⟩]

/-- A high-importance item (above the deep-analysis threshold). -/
def item10 : NewsItem :=
  { id := "n10", title := "央行降准", content := "内容", importance_score := 85 }

/-- An item below the deep-analysis threshold. -/
def item2 : NewsItem :=
  { id := "n2", title := "一般新闻", content := "内容", importance_score := 50 }

/-- An item with an in-range importance score, id preset. -/
def item3 : NewsItem :=
  { id := "n3", title := "新闻三", url := "http://example.com/3", importance_score := 55 }

/-- The store after one ingest of `item4`. -/
def db1 : Store.DB := Store.save_news_items_batch (saveEnvAt 1) Store.emptyDB [item4]

/-- An async environment: client up, every call answers, no task exceptions,
every gather succeeds. -/
def envAsync : AIAnalyzer.AsyncEnv :=
  { resp := fun _ => .ok "****", taskExc := fun _ => false, clientUp := true,
    gatherOk := fun _ => true }

def newsA : NewsItem := { id := "a1", title := "甲" }

def newsB : NewsItem := { id := "b2", title := "乙" }

/-- A concrete evidence summary for exercising the adjustment formula. -/
def ev7 : DeepAnalyzer.EvidenceSummary :=
  { summary := "央行与官方发布", top_evidence := [], evidence_count := 2, avg_score := 6 }

/-- A concrete scheduler event. -/
def ev8 : Scheduler.Event := { timestamp := 1, type := "job_executed", success := true, message := "ok" }

/-- A concrete operation sequence: record, save, record, load. -/
def ops8 : List Scheduler.Op := [.record ev8, .save, .record ev8, .load]

end AiNews

/-! ## Theorems -/

namespace AiNews

/-- `min 100 (max 0 x)` and `max 0 (min 100 x)` agree on `ℤ`. -/
theorem min_max_clamp_comm (x : ℤ) : min 100 (max 0 x) = clampZ x := by
  unfold clampZ
  rcases le_total x 0 with h | h <;> rcases le_total x 100 with h2 | h2 <;>
    simp [min_def, max_def] <;> omega

/-- `clampQ` lands in `[0, 100]`. -/
theorem clampQ_bounds (x : ℚ) : 0 ≤ clampQ x ∧ clampQ x ≤ 100 :=
  ⟨le_max_left 0 _, max_le (by norm_num) (min_le_left _ _)⟩

/-- `clampZ` lands in `[0, 100]`. -/
theorem clampZ_bounds (x : ℤ) : 0 ≤ clampZ x ∧ clampZ x ≤ 100 :=
  ⟨le_max_left 0 _, max_le (by norm_num) (min_le_left _ _)⟩

/-- C2: for every NewsItem with `importance_score < score_threshold`,
`analyze_news_deep` returns the skip sentinel — `model_used = "skip"`,
`adjusted_score` and `original_score` equal to the item's importance score —
and performs no search and no LLM call (empty effect trace). -/
theorem c2_deep_gate_skip (cfg : DeepAnalyzer.Config) (env : DeepAnalyzer.Env)
    (item : NewsItem) (h : item.importance_score < cfg.score_threshold) :
    DeepAnalyzer.analyze_news_deep cfg env item =
      (DeepAnalyzer.create_skip_result item, []) ∧
    (DeepAnalyzer.analyze_news_deep cfg env item).1.model_used = "skip" ∧
    (DeepAnalyzer.analyze_news_deep cfg env item).1.adjusted_score = item.importance_score ∧
    (DeepAnalyzer.analyze_news_deep cfg env item).1.original_score = item.importance_score ∧
    (DeepAnalyzer.analyze_news_deep cfg env item).2 = [] := by
  have hs : DeepAnalyzer.should_analyze cfg item = false := by
    unfold DeepAnalyzer.should_analyze
    rw [decide_eq_false (not_le.mpr h), Bool.and_false]
  have he : DeepAnalyzer.analyze_news_deep cfg env item =
      (DeepAnalyzer.create_skip_result item, []) := by
    unfold DeepAnalyzer.analyze_news_deep
    rw [hs]
    simp
  refine ⟨he, ?_, ?_, ?_, ?_⟩ <;> rw [he] <;> rfl

/-- C2 witness at a concrete below-threshold item. -/
theorem c2_deep_gate_skip_witness :
    item2.importance_score < (({} : DeepAnalyzer.Config)).score_threshold ∧
    (DeepAnalyzer.analyze_news_deep {} deepPartialEnv item2).1.model_used = "skip" ∧
    (DeepAnalyzer.analyze_news_deep {} deepPartialEnv item2).2 = [] := by
  refine ⟨by decide, ?_, ?_⟩
  · exact (c2_deep_gate_skip {} deepPartialEnv item2 (by decide)).2.1
  · exact (c2_deep_gate_skip {} deepPartialEnv item2 (by decide)).2.2.2.2

/-- The history-length invariant together with the file invariant. -/
theorem scheduler_step_preserves (s : Scheduler.State) (op : Scheduler.Op)
    (h1 : s.history.length ≤ Scheduler.max_history_size)
    (h2 : ∀ f, s.file = some f → f.length ≤ Scheduler.max_history_size) :
    (Scheduler.step s op).history.length ≤ Scheduler.max_history_size ∧
    ∀ f, (Scheduler.step s op).file = some f →
      f.length ≤ Scheduler.max_history_size := by
  cases op with
  | record e =>
    refine ⟨?_, by simpa using h2⟩
    simp only [Scheduler.step, Scheduler.record_event]
    split
    · simp only [List.length_drop]
      omega
    · simp only [List.length_append, List.length_singleton] at *
      omega
  | save =>
    refine ⟨h1, ?_⟩
    intro f hf
    simp only [Scheduler.step, Option.some.injEq] at hf
    subst hf
    simp only [Scheduler.save_state_history, List.length_drop]
    unfold Scheduler.max_history_size
    omega
  | load =>
    cases hf : s.file with
    | none => simp only [Scheduler.step, hf]; exact ⟨h1, by simpa [hf] using h2⟩
    | some f =>
      simp only [Scheduler.step, hf]
      exact ⟨h2 f hf, by simpa [hf] using h2⟩

/-- C8: `execution_history` never exceeds 100 entries — the bound is
preserved by every `record_event`, `save_state` and `load_state` along any
operation sequence (the state file being one `save_state` wrote) — and when
the cap is reached `record_event` discards the oldest entry first. -/
theorem c8_history_bounded (init : Scheduler.State) (ops : List Scheduler.Op)
    (h1 : init.history.length ≤ Scheduler.max_history_size)
    (h2 : ∀ f, init.file = some f → f.length ≤ Scheduler.max_history_size) :
    (Scheduler.run init ops).history.length ≤ Scheduler.max_history_size ∧
    (∀ f, (Scheduler.run init ops).file = some f →
       f.length ≤ Scheduler.max_history_size) ∧
    (∀ (h : Scheduler.History) (e : Scheduler.Event),
       Scheduler.max_history_size ≤ h.length →
       Scheduler.record_event h e =
         h.drop (h.length + 1 - Scheduler.max_history_size) ++ [e]) := by
  have inv : (Scheduler.run init ops).history.length ≤ Scheduler.max_history_size ∧
      ∀ f, (Scheduler.run init ops).file = some f →
        f.length ≤ Scheduler.max_history_size := by
    unfold Scheduler.run
    induction ops generalizing init with
    | nil => exact ⟨h1, h2⟩
    | cons op rest ih =>
      have := scheduler_step_preserves init op h1 h2
      exact ih (Scheduler.step init op) this.1 this.2
  refine ⟨inv.1, inv.2, ?_⟩
  intro h e hlen
  unfold Scheduler.record_event Scheduler.max_history_size at *
  have hlen' : (h ++ [e]).length = h.length + 1 := by simp
  rw [if_pos (by omega), hlen',
    List.drop_append_of_le_length (by omega : h.length + 1 - 100 ≤ h.length)]

/-- C8 witness at a concrete initial state and operation sequence. -/
theorem c8_history_bounded_witness :
    (Scheduler.run ⟨[], none⟩ ops8).history.length ≤ Scheduler.max_history_size := by
  have := c8_history_bounded ⟨[], none⟩ ops8 (by decide) (by intro f hf; cases hf)
  exact this.1

/-- C9 counterexample: on the concrete input `results9` the rendered
"High impact" section keeps the input order `[11, 99]` and is not the
`|impact_score|`-descending order the claim states. -/
theorem c9_high_impact_not_sorted_counterexample :
    Email.high_impact_section results9 = results9 ∧
    Email.spec_high_impact_section results9 =
      [⟨"b", 99, "高"⟩, ⟨"a", 11, "低"⟩] ∧
    Email.high_impact_section results9 ≠ Email.spec_high_impact_section results9 := by
  have h11 : (10 : ℚ) < 11 := by norm_num
  have h99 : (10 : ℚ) < 99 := by norm_num
  have hcmp : (11 : ℚ) < 99 := by norm_num
  have e1 : Email.high_impact_section results9 = results9 := by
    simp [Email.high_impact_section, results9, List.filter,
      decide_eq_true h11, decide_eq_true h99]
  have e2 : Email.spec_high_impact_section results9 =
      [⟨"b", 99, "高"⟩, ⟨"a", 11, "低"⟩] := by
    simp [Email.spec_high_impact_section, results9, List.filter,
      decide_eq_true h11, decide_eq_true h99, sortByDesc, insertByDesc, hcmp]
  refine ⟨e1, e2, ?_⟩
  rw [e1, e2]
  simp [results9]

/-- C9 amended: the "High impact" section consists of items with
`|impact_score| > 10`, capped at the first 5 such items, in input order (a
sublist of the input); when at most 5 items qualify it is exactly the
filtered list.  (It is the "All news" section, not this one, that the code
sorts by `|impact_score|`.) -/
theorem c9_high_impact_section_contents (results : List AnalysisResult) :
    (∀ r ∈ Email.high_impact_section results, 10 < |r.impact_score|) ∧
    (Email.high_impact_section results).length ≤ 5 ∧
    (Email.high_impact_section results).Sublist results ∧
    ((results.filter (fun r => 10 < |r.impact_score|)).length ≤ 5 →
      Email.high_impact_section results =
        results.filter (fun r => 10 < |r.impact_score|)) := by
  refine ⟨?_, ?_, ?_, ?_⟩
  · intro r hr
    have hm := List.mem_of_mem_take hr
    exact of_decide_eq_true (List.mem_filter.mp hm).2
  · simpa [Email.high_impact_section] using
      min_le_left 5 (results.filter (fun r => 10 < |r.impact_score|)).length
  · exact (List.take_sublist 5 _).trans (List.filter_sublist _)
  · intro h
    unfold Email.high_impact_section
    exact List.take_of_length_le h

/-- C9 amended witness at the concrete input. -/
theorem c9_high_impact_section_contents_witness :
    Email.high_impact_section results9 =
      results9.filter (fun r => 10 < |r.impact_score|) := by
  have h11 : (10 : ℚ) < 11 := by norm_num
  have h99 : (10 : ℚ) < 99 := by norm_num
  exact (c9_high_impact_section_contents results9).2.2.2
    (by simp [results9, List.filter, decide_eq_true h11, decide_eq_true h99])

/-- C5 counterexample: with the primary request failing on an HTTP 500, the
single-item path issues exactly one primary-model request, performs no
backoff wait at all, and goes straight to the fallback model — violating the
claimed 3-attempt jitter-backoff retry policy. -/
theorem c5_retry_policy_counterexample :
    (AIAnalyzer.analyze_news cfg5 jp0 env5 item5).2 =
      [.request "deepseek-reasoner" 30, .request "deepseek-chat" 60] ∧
    AIAnalyzer.countRequests cfg5.model
      (AIAnalyzer.analyze_news cfg5 jp0 env5 item5).2 = 1 ∧
    AIAnalyzer.traceWaits (AIAnalyzer.analyze_news cfg5 jp0 env5 item5).2 = [] ∧
    ¬ AIAnalyzer.spec_retry_policy cfg5
        (AIAnalyzer.analyze_news cfg5 jp0 env5 item5).2 := by
  have h3 : AIAnalyzer.traceWaits (AIAnalyzer.analyze_news cfg5 jp0 env5 item5).2 = [] :=
    by decide
  refine ⟨by decide, by decide, h3, ?_⟩
  intro hsp
  rcases hsp.1 with ⟨s, hs, -⟩
  rw [h3] at hs
  exact absurd hs (List.not_mem_nil s)

/-- C5 amended: when the primary request raises (an HTTP non-2xx error
included), the impact analyzer does not retry the primary model and performs
no backoff wait; it immediately issues exactly one request against the
configured fallback model with the independent `fallback_timeout`, whose
response is parsed and whose failure — the call raising, or a `TypeError`
escaping the parse — yields the error-fallback result. -/
theorem c5_single_fallback_after_primary_failure (cfg : AIAnalyzer.Config)
    (jp : AIAnalyzer.JsonOracle) (env : AIAnalyzer.SyncEnv) (item : NewsItem)
    (e : String) (h : env.primary = .error e) :
    (AIAnalyzer.analyze_news cfg jp env item).2 =
      [.request cfg.model cfg.timeout,
       .request cfg.fallback_model cfg.fallback_timeout] ∧
    AIAnalyzer.traceWaits (AIAnalyzer.analyze_news cfg jp env item).2 = [] ∧
    (AIAnalyzer.analyze_news cfg jp env item).1 =
      (match env.fallback with
       | .ok r =>
         (match AIAnalyzer.parse_analysis_response jp item.id r with
          | .ok result => result
          | .error _ => AIAnalyzer.error_fallback_analysis item)
       | .error _ => AIAnalyzer.error_fallback_analysis item) := by
  unfold AIAnalyzer.analyze_news AIAnalyzer.call_deepseek_api
    AIAnalyzer.analyze_news_fallback_path AIAnalyzer.call_deepseek_api_fallback
  rw [h]
  cases hf : env.fallback with
  | ok r =>
    cases hp : AIAnalyzer.parse_analysis_response jp item.id r <;>
      simp [hp, AIAnalyzer.traceWaits]
  | error e₂ => simp [AIAnalyzer.traceWaits]

/-- C5 amended witness at the concrete failing-primary environment. -/
theorem c5_single_fallback_witness :
    (AIAnalyzer.analyze_news cfg5 jp0 env5 item5).2 =
      [.request cfg5.model cfg5.timeout,
       .request cfg5.fallback_model cfg5.fallback_timeout] :=
  (c5_single_fallback_after_primary_failure cfg5 jp0 env5 item5
    "Error code: 500" rfl).1

/-- C6 counterexample: on the response `"hello"`, which contains no
parseable JSON, the parse raises internally (`ValueError`, inside the except
tuple) but `_parse_analysis_response` catches it and returns the fallback
result (score 0) — a result is returned, nothing propagates. -/
theorem c6_parse_failure_counterexample :
    (AIAnalyzer.parse_analysis_response_try jp0 "id1" "hello").isOk = false ∧
    AIAnalyzer.parse_analysis_response jp0 "id1" "hello" =
      .ok (AIAnalyzer.create_fallback_result "id1" "hello") ∧
    (AIAnalyzer.create_fallback_result "id1" "hello").impact_score = 0 ∧
    (AIAnalyzer.analyze_news cfg5 jp0
        { primary := .ok "hello", fallback := .ok "" } item5).1 =
      AIAnalyzer.create_fallback_result "news-1" "hello" := by
  exact ⟨rfl, rfl, rfl, rfl⟩

/-- C6 amended: when the parse `try` block raises an exception inside the
except tuple — no JSON braces, undecodable JSON, or a `float()` `ValueError`
— `_parse_analysis_response` returns the fallback result (score 0, summary
`"AI解析失败，使用默认分析结果"`); when it raises the `TypeError` that
`float()` throws on `null`/list/object, the exception is *not* in the tuple
and propagates out, and in `analyze_news` the escape from the primary parse
is caught by the surrounding handler, triggering the fallback-model
request. -/
theorem c6_parse_failure_returns_fallback (cfg : AIAnalyzer.Config)
    (jp : AIAnalyzer.JsonOracle) (env : AIAnalyzer.SyncEnv) (item : NewsItem)
    (response : String) (e : AIAnalyzer.PyExc)
    (h : AIAnalyzer.parse_analysis_response_try jp item.id response = .error e) :
    (e.caughtByParse = true →
      AIAnalyzer.parse_analysis_response jp item.id response =
        .ok (AIAnalyzer.create_fallback_result item.id response)) ∧
    (e.caughtByParse = false →
      AIAnalyzer.parse_analysis_response jp item.id response =
        .error .typeError) ∧
    (AIAnalyzer.create_fallback_result item.id response).impact_score = 0 ∧
    (env.primary = .ok response → e.caughtByParse = false →
      AIAnalyzer.analyze_news cfg jp env item =
        AIAnalyzer.analyze_news_fallback_path cfg jp env item
          [.request cfg.model cfg.timeout]) := by
  refine ⟨?_, ?_, rfl, ?_⟩
  · intro hc
    unfold AIAnalyzer.parse_analysis_response
    rw [h]
    cases e <;> simp_all [AIAnalyzer.PyExc.caughtByParse]
  · intro hc
    unfold AIAnalyzer.parse_analysis_response
    rw [h]
    cases e <;> simp_all [AIAnalyzer.PyExc.caughtByParse]
  · intro hprim hc
    have he : e = .typeError := by
      cases e <;> simp_all [AIAnalyzer.PyExc.caughtByParse]
    subst he
    have hpp : AIAnalyzer.parse_analysis_response jp item.id response =
        .error .typeError := by
      unfold AIAnalyzer.parse_analysis_response
      rw [h]
    unfold AIAnalyzer.analyze_news AIAnalyzer.call_deepseek_api
    rw [hprim]
    simp only [hpp]

/-- C6 amended witness: the caught branch at the JSON-free response and the
uncaught `TypeError` branch at `{"impact_score": null}`. -/
theorem c6_parse_failure_returns_fallback_witness :
    AIAnalyzer.parse_analysis_response jp0 item5.id "hello" =
      .ok (AIAnalyzer.create_fallback_result item5.id "hello") ∧
    AIAnalyzer.parse_analysis_response jpNull item5.id respNull =
      .error .typeError :=
  ⟨(c6_parse_failure_returns_fallback cfg5 jp0 env5 item5 "hello"
      .valueError rfl).1 rfl,
   (c6_parse_failure_returns_fallback cfg5 jpNull env5 item5 respNull
      .typeError rfl).2.1 rfl⟩

/-- When the `try` block succeeds, the result carries the given news id. -/
theorem parse_analysis_response_try_news_id (jp : AIAnalyzer.JsonOracle)
    (news_id response : String) (r : AnalysisResult)
    (h : AIAnalyzer.parse_analysis_response_try jp news_id response = .ok r) :
    r.news_id = news_id := by
  simp only [AIAnalyzer.parse_analysis_response_try] at h
  split at h <;> try (cases h)
  split at h <;> try (cases h)
  split at h <;> cases h <;> rfl

/-- Every result the single-item parser returns (rather than raising)
carries the news id it was given. -/
theorem parse_analysis_response_news_id (jp : AIAnalyzer.JsonOracle)
    (news_id response : String) (r : AnalysisResult)
    (h : AIAnalyzer.parse_analysis_response jp news_id response = .ok r) :
    r.news_id = news_id := by
  unfold AIAnalyzer.parse_analysis_response at h
  cases heq : AIAnalyzer.parse_analysis_response_try jp news_id response with
  | ok r₀ =>
    rw [heq] at h
    cases h
    exact parse_analysis_response_try_news_id jp news_id response _ heq
  | error e =>
    rw [heq] at h
    cases e with
    | jsonDecodeError => cases h; rfl
    | valueError => cases h; rfl
    | typeError => cases h

/-- Every result of the async single-item path carries the item's id. -/
theorem async_analyze_news_news_id (jp : AIAnalyzer.JsonOracle)
    (env : AIAnalyzer.AsyncEnv) (i : ℕ) (item : NewsItem) :
    (AIAnalyzer.async_analyze_news jp env i item).news_id = item.id := by
  unfold AIAnalyzer.async_analyze_news
  split
  · rfl
  · split
    · split
      next r heq => exact parse_analysis_response_news_id jp item.id _ r heq
      next heq => rfl
    · rfl

/-- The fallback half of `analyze_news` carries the item's id. -/
theorem analyze_news_fallback_path_news_id (cfg : AIAnalyzer.Config)
    (jp : AIAnalyzer.JsonOracle) (env : AIAnalyzer.SyncEnv) (item : NewsItem)
    (t₁ : List AIAnalyzer.ApiEffect) :
    (AIAnalyzer.analyze_news_fallback_path cfg jp env item t₁).1.news_id =
      item.id := by
  unfold AIAnalyzer.analyze_news_fallback_path AIAnalyzer.call_deepseek_api_fallback
  cases env.fallback with
  | ok r =>
    cases hp : AIAnalyzer.parse_analysis_response jp item.id r with
    | ok res =>
      simp only [hp]
      exact parse_analysis_response_news_id jp item.id r res hp
    | error e => simp only [hp]; rfl
  | error e => rfl

/-- Every result of the sync single-item path carries the item's id. -/
theorem analyze_news_news_id (cfg : AIAnalyzer.Config) (jp : AIAnalyzer.JsonOracle)
    (env : AIAnalyzer.SyncEnv) (item : NewsItem) :
    (AIAnalyzer.analyze_news cfg jp env item).1.news_id = item.id := by
  unfold AIAnalyzer.analyze_news AIAnalyzer.call_deepseek_api
  cases env.primary with
  | ok r =>
    cases hp : AIAnalyzer.parse_analysis_response jp item.id r with
    | ok res =>
      simp only [hp]
      exact parse_analysis_response_news_id jp item.id r res hp
    | error e =>
      simp only [hp]
      exact analyze_news_fallback_path_news_id ..
  | error e => exact analyze_news_fallback_path_news_id ..

/-- `Forall₂` respects `++`. -/
theorem forall₂_append {α β : Type _} {R : α → β → Prop} {l₁ u₁ : List α}
    {l₂ u₂ : List β} (h1 : List.Forall₂ R l₁ l₂) (h2 : List.Forall₂ R u₁ u₂) :
    List.Forall₂ R (l₁ ++ u₁) (l₂ ++ u₂) := by
  induction h1 with
  | nil => simpa
  | cons h t ih => exact List.Forall₂.cons h ih

/-- The per-task handler of a gathered sub-batch aligns ids positionally. -/
theorem runBatchTasks_forall₂ (jp : AIAnalyzer.JsonOracle)
    (env : AIAnalyzer.AsyncEnv) :
    ∀ (i : ℕ) (l : List NewsItem),
      List.Forall₂ (fun (y : AnalysisResult) (x : NewsItem) => y.news_id = x.id)
        (AIAnalyzer.runBatchTasks jp env i l) l := by
  intro i l
  induction l generalizing i with
  | nil => exact List.Forall₂.nil
  | cons x xs ih =>
    refine List.Forall₂.cons ?_ (ih (i + 1))
    by_cases h : env.taskExc i <;>
      simp [h, AIAnalyzer.error_fallback_analysis, async_analyze_news_news_id]

/-- The whole-sub-batch failure handler aligns ids positionally. -/
theorem map_error_fallback_forall₂ (l : List NewsItem) :
    List.Forall₂ (fun (y : AnalysisResult) (x : NewsItem) => y.news_id = x.id)
      (l.map AIAnalyzer.error_fallback_analysis) l := by
  induction l with
  | nil => exact List.Forall₂.nil
  | cons x xs ih => exact List.Forall₂.cons rfl ih

/-- The sub-batch loop aligns ids positionally, for any offset. -/
theorem processBatches_forall₂ (cfg : AIAnalyzer.Config) (jp : AIAnalyzer.JsonOracle)
    (env : AIAnalyzer.AsyncEnv) (hbs : 0 < cfg.batch_size) :
    ∀ (l : List NewsItem) (off : ℕ),
      List.Forall₂ (fun (y : AnalysisResult) (x : NewsItem) => y.news_id = x.id)
        (AIAnalyzer.processBatches cfg jp env off l) l := by
  suffices H : ∀ (n : ℕ) (l : List NewsItem), l.length ≤ n → ∀ off,
      List.Forall₂ (fun (y : AnalysisResult) (x : NewsItem) => y.news_id = x.id)
        (AIAnalyzer.processBatches cfg jp env off l) l by
    intro l off
    exact H l.length l le_rfl off
  intro n
  induction n with
  | zero =>
    intro l hl off
    have h0 : l = [] := List.length_eq_zero.mp (Nat.le_zero.mp hl)
    subst h0
    rw [AIAnalyzer.processBatches]
    simp
  | succ n ih =>
    intro l hl off
    rw [AIAnalyzer.processBatches]
    by_cases h0 : l = []
    · simp [h0]
    · rw [dif_neg h0, dif_neg (by omega : ¬cfg.batch_size = 0)]
      have hrec := ih (l.drop cfg.batch_size)
        (by
          simp only [List.length_drop]
          have : 0 < l.length := List.length_pos.mpr h0
          omega)
        (off + cfg.batch_size)
      have hhead : List.Forall₂
          (fun (y : AnalysisResult) (x : NewsItem) => y.news_id = x.id)
          (if env.gatherOk off then
            AIAnalyzer.runBatchTasks jp env off (l.take cfg.batch_size)
          else (l.take cfg.batch_size).map AIAnalyzer.error_fallback_analysis)
          (l.take cfg.batch_size) := by
        by_cases hg : env.gatherOk off
        · simpa [hg] using runBatchTasks_forall₂ jp env off (l.take cfg.batch_size)
        · simpa [hg] using map_error_fallback_forall₂ (l.take cfg.batch_size)
      have := forall₂_append hhead hrec
      rwa [List.take_append_drop] at this

/-- C1: for every batch call, the async batch path returns exactly one result
per input item, in input order — `ys.length = xs.length` and
`ys[i].news_id = xs[i].id` — with per-item failures replaced in place by the
error sentinel; the serial `batch_analyze` path satisfies the same
alignment. -/
theorem c1_batch_output_aligned (cfg : AIAnalyzer.Config)
    (jp : AIAnalyzer.JsonOracle) (env : AIAnalyzer.AsyncEnv)
    (envOf : ℕ → AIAnalyzer.SyncEnv) (news_list : List NewsItem)
    (hbs : 0 < cfg.batch_size) :
    ((AIAnalyzer.async_batch_analyze cfg jp env news_list).length =
        news_list.length ∧
      ∀ i (h₁ : i < (AIAnalyzer.async_batch_analyze cfg jp env news_list).length)
        (h₂ : i < news_list.length),
        ((AIAnalyzer.async_batch_analyze cfg jp env news_list).get ⟨i, h₁⟩).news_id =
          (news_list.get ⟨i, h₂⟩).id) ∧
    ((AIAnalyzer.batch_analyze cfg jp envOf news_list 0).length = news_list.length ∧
      ∀ i (h₁ : i < (AIAnalyzer.batch_analyze cfg jp envOf news_list 0).length)
        (h₂ : i < news_list.length),
        ((AIAnalyzer.batch_analyze cfg jp envOf news_list 0).get ⟨i, h₁⟩).news_id =
          (news_list.get ⟨i, h₂⟩).id) := by
  constructor
  · have hf : List.Forall₂ (fun (y : AnalysisResult) (x : NewsItem) => y.news_id = x.id)
        (AIAnalyzer.async_batch_analyze cfg jp env news_list) news_list := by
      unfold AIAnalyzer.async_batch_analyze
      by_cases h0 : news_list = []
      · simp [h0]
      · rw [if_neg h0]
        exact processBatches_forall₂ cfg jp env hbs news_list 0
    exact ⟨hf.length_eq, fun i h₁ h₂ => hf.get h₁ h₂⟩
  · have hf : ∀ (start : ℕ) (l : List NewsItem),
        List.Forall₂ (fun (y : AnalysisResult) (x : NewsItem) => y.news_id = x.id)
          (AIAnalyzer.batch_analyze cfg jp envOf l start) l := by
      intro start l
      induction l generalizing start with
      | nil => exact List.Forall₂.nil
      | cons x xs ih =>
        exact List.Forall₂.cons (analyze_news_news_id ..) (ih (start + 1))
    exact ⟨(hf 0 news_list).length_eq, fun i h₁ h₂ => (hf 0 news_list).get h₁ h₂⟩

/-- C1 witness at a concrete two-item batch. -/
theorem c1_batch_output_aligned_witness :
    (AIAnalyzer.async_batch_analyze {} jp0 envAsync [newsA, newsB]).length = 2 := by
  have := (c1_batch_output_aligned {} jp0 envAsync (fun _ => env5) [newsA, newsB]
    (by decide)).1.1
  simpa using this

/-- C7: the deep analyzer's score adjustment equals the spec's additive
formula — original score plus evidence-quality bonus (+10/+6/+3 by average
evidence score), evidence-count bonus (+3/+2), report-content bonus (+2 per
high-impact keyword capped at 6, +1 per market keyword capped at 4) and
evidence-authority bonus (+1 per authority keyword in the summary capped at
5) — clamped to `[0,100]`; and on every successful self-search analysis with
score adjustment enabled the result's `adjusted_score` is exactly this
value. -/
theorem c7_adjust_score_formula (item : NewsItem) (report : String)
    (ev : DeepAnalyzer.EvidenceSummary) :
    DeepAnalyzer.adjust_score_with_evidence item report ev =
      DeepAnalyzer.spec_adjusted_score item report ev ∧
    0 ≤ DeepAnalyzer.adjust_score_with_evidence item report ev ∧
    DeepAnalyzer.adjust_score_with_evidence item report ev ≤ 100 ∧
    (∀ (cfg : DeepAnalyzer.Config) (env : DeepAnalyzer.Env),
      cfg.enable_score_adjustment = true →
      (DeepAnalyzer.analyze_with_ai_self_search cfg env item).1.map
          (fun r => r.adjusted_score) =
        (DeepAnalyzer.analyze_with_ai_self_search cfg env item).1.map
          (fun r => DeepAnalyzer.adjust_score_with_evidence item
            r.deep_analysis_report
            (DeepAnalyzer.evaluate_and_summarize_evidence cfg env
              (DeepAnalyzer.searchLoop cfg env
                (DeepAnalyzer.generate_search_queries cfg env item) 0 0).1
              item))) := by
  have h1 : DeepAnalyzer.adjust_score_with_evidence item report ev =
      DeepAnalyzer.spec_adjusted_score item report ev := by
    simp only [DeepAnalyzer.adjust_score_with_evidence, DeepAnalyzer.spec_adjusted_score,
      DeepAnalyzer.spec_quality_bonus, DeepAnalyzer.spec_count_bonus,
      DeepAnalyzer.spec_report_bonus, DeepAnalyzer.spec_authority_bonus]
    rw [min_max_clamp_comm]
    exact congrArg clampZ (by ring)
  refine ⟨h1, ?_, ?_, ?_⟩
  · rw [h1]; exact (clampZ_bounds _).1
  · rw [h1]; exact (clampZ_bounds _).2
  · intro cfg env hen
    unfold DeepAnalyzer.analyze_with_ai_self_search
    cases hg : DeepAnalyzer.generate_evidence_based_analysis cfg env with
    | error e => simp [hg, Except.map]
    | ok rep => simp [hg, Except.map, hen]

/-- C7 witness: the formula instantiated at a concrete evidence summary, and
the pipeline conjunct discharged on a concrete successful run. -/
theorem c7_adjust_score_formula_witness :
    DeepAnalyzer.adjust_score_with_evidence item10 "分析" ev7 =
      DeepAnalyzer.spec_adjusted_score item10 "分析" ev7 ∧
    (DeepAnalyzer.analyze_with_ai_self_search {} deepPartialEnv item10).1.map
        (fun r => r.adjusted_score) =
      (DeepAnalyzer.analyze_with_ai_self_search {} deepPartialEnv item10).1.map
        (fun r => DeepAnalyzer.adjust_score_with_evidence item10
          r.deep_analysis_report
          (DeepAnalyzer.evaluate_and_summarize_evidence {} deepPartialEnv
            (DeepAnalyzer.searchLoop {} deepPartialEnv
              (DeepAnalyzer.generate_search_queries {} deepPartialEnv item10) 0 0).1
            item10)) :=
  ⟨(c7_adjust_score_formula item10 "分析" ev7).1,
   (c7_adjust_score_formula item10 "分析" ev7).2.2.2 {} deepPartialEnv rfl⟩

/-- When the parse `try` block succeeds, the score was clamped into
`[0,100]`. -/
theorem parse_analysis_response_try_bounds (jp : AIAnalyzer.JsonOracle)
    (news_id response : String) (r : AnalysisResult)
    (h : AIAnalyzer.parse_analysis_response_try jp news_id response = .ok r) :
    0 ≤ r.impact_score ∧ r.impact_score ≤ 100 := by
  simp only [AIAnalyzer.parse_analysis_response_try] at h
  split at h <;> try (cases h)
  split at h <;> try (cases h)
  split at h <;> cases h <;> exact clampQ_bounds _

/-- Every score the single-item parser returns (rather than raising) lies in
`[0,100]`. -/
theorem parse_analysis_response_bounds (jp : AIAnalyzer.JsonOracle)
    (news_id response : String) (r : AnalysisResult)
    (h : AIAnalyzer.parse_analysis_response jp news_id response = .ok r) :
    0 ≤ r.impact_score ∧ r.impact_score ≤ 100 := by
  unfold AIAnalyzer.parse_analysis_response at h
  cases heq : AIAnalyzer.parse_analysis_response_try jp news_id response with
  | ok r₀ =>
    rw [heq] at h
    cases h
    exact parse_analysis_response_try_bounds jp news_id response _ heq
  | error e =>
    rw [heq] at h
    cases e with
    | jsonDecodeError =>
      cases h
      exact ⟨le_refl 0, by norm_num [AIAnalyzer.create_fallback_result]⟩
    | valueError =>
      cases h
      exact ⟨le_refl 0, by norm_num [AIAnalyzer.create_fallback_result]⟩
    | typeError => cases h

/-- The keyword-rule mock analysis scores within `[0,100]`. -/
theorem mock_analysis_bounds (item : NewsItem) :
    0 ≤ (AIAnalyzer.mock_analysis item).impact_score ∧
    (AIAnalyzer.mock_analysis item).impact_score ≤ 100 := by
  simp only [AIAnalyzer.mock_analysis]
  generalize hp : ((AIAnalyzer.positive_words.filter
    (fun w => substrMem w (pyLower (item.title ++ " " ++ item.content)))).length : ℤ) = p
  generalize hn : ((AIAnalyzer.negative_words.filter
    (fun w => substrMem w (pyLower (item.title ++ " " ++ item.content)))).length : ℤ) = n
  have hp0 : 0 ≤ p := hp ▸ Int.natCast_nonneg _
  have hn0 : 0 ≤ n := hn ▸ Int.natCast_nonneg _
  have hb : (0 : ℤ) ≤ (if p > n then min (p * 15) 80
      else if n > p then max (100 - n * 15) 20 else 50) ∧
      (if p > n then min (p * 15) 80
      else if n > p then max (100 - n * 15) 20 else 50) ≤ 100 := by
    constructor <;> split_ifs <;>
      (try simp only [le_min_iff, min_le_iff, le_max_iff, max_le_iff]) <;> omega
  exact ⟨by exact_mod_cast hb.1, by exact_mod_cast hb.2⟩

/-- The async single-item path always returns a score in `[0,100]`. -/
theorem async_analyze_news_bounds (jp : AIAnalyzer.JsonOracle)
    (env : AIAnalyzer.AsyncEnv) (i : ℕ) (item : NewsItem) :
    0 ≤ (AIAnalyzer.async_analyze_news jp env i item).impact_score ∧
    (AIAnalyzer.async_analyze_news jp env i item).impact_score ≤ 100 := by
  unfold AIAnalyzer.async_analyze_news
  split
  · exact mock_analysis_bounds item
  · split
    · split
      next r heq => exact parse_analysis_response_bounds jp item.id _ r heq
      next heq => exact ⟨le_refl 0, by norm_num [AIAnalyzer.error_fallback_analysis]⟩
    · exact ⟨le_refl 0, by norm_num [AIAnalyzer.error_fallback_analysis]⟩

/-- The fallback half of `analyze_news` lands in `[0,100]`. -/
theorem analyze_news_fallback_path_bounds (cfg : AIAnalyzer.Config)
    (jp : AIAnalyzer.JsonOracle) (env : AIAnalyzer.SyncEnv) (item : NewsItem)
    (t₁ : List AIAnalyzer.ApiEffect) :
    0 ≤ (AIAnalyzer.analyze_news_fallback_path cfg jp env item t₁).1.impact_score ∧
    (AIAnalyzer.analyze_news_fallback_path cfg jp env item t₁).1.impact_score ≤ 100 := by
  unfold AIAnalyzer.analyze_news_fallback_path AIAnalyzer.call_deepseek_api_fallback
  cases env.fallback with
  | ok r =>
    cases hp : AIAnalyzer.parse_analysis_response jp item.id r with
    | ok res =>
      simp only [hp]
      exact parse_analysis_response_bounds jp item.id r res hp
    | error e =>
      simp only [hp]
      exact ⟨le_refl 0, by norm_num [AIAnalyzer.error_fallback_analysis]⟩
  | error e => exact ⟨le_refl 0, by norm_num [AIAnalyzer.error_fallback_analysis]⟩

/-- The sync single-item path always returns a score in `[0,100]`. -/
theorem analyze_news_bounds (cfg : AIAnalyzer.Config) (jp : AIAnalyzer.JsonOracle)
    (env : AIAnalyzer.SyncEnv) (item : NewsItem) :
    0 ≤ (AIAnalyzer.analyze_news cfg jp env item).1.impact_score ∧
    (AIAnalyzer.analyze_news cfg jp env item).1.impact_score ≤ 100 := by
  unfold AIAnalyzer.analyze_news AIAnalyzer.call_deepseek_api
  cases env.primary with
  | ok r =>
    cases hp : AIAnalyzer.parse_analysis_response jp item.id r with
    | ok res =>
      simp only [hp]
      exact parse_analysis_response_bounds jp item.id r res hp
    | error e =>
      simp only [hp]
      exact analyze_news_fallback_path_bounds ..
  | error e => exact analyze_news_fallback_path_bounds ..

/-- The importance mocks score within `[0,100]`. -/
theorem importance_mock_bounds (item : NewsItem) (err : Bool) :
    0 ≤ (ImportanceAnalyzer.mock_analysis item err).importance_score ∧
    (ImportanceAnalyzer.mock_analysis item err).importance_score ≤ 100 := by
  unfold ImportanceAnalyzer.mock_analysis
  cases err with
  | true => exact ⟨by norm_num, by norm_num⟩
  | false =>
    refine ⟨?_, ?_⟩
    · simp only
      exact le_trans (by norm_num) (le_max_left 20 _)
    · simp only
      exact max_le (by norm_num) (le_trans (min_le_left _ _) (by norm_num))

/-- The importance scorer always returns a score in `[0,100]`. -/
theorem analyze_importance_bounds (penv : ImportanceAnalyzer.ParseEnv)
    (clientUp : Bool) (resp : Except String String) (item : NewsItem) :
    0 ≤ (ImportanceAnalyzer.analyze_importance penv clientUp resp item).importance_score ∧
    (ImportanceAnalyzer.analyze_importance penv clientUp resp item).importance_score ≤ 100 := by
  unfold ImportanceAnalyzer.analyze_importance
  split
  · exact importance_mock_bounds item false
  · cases resp with
    | error e => exact importance_mock_bounds item true
    | ok r =>
      simp only [ImportanceAnalyzer.parse_importance_result]
      split
      · exact importance_mock_bounds item true
      · exact clampZ_bounds _

/-- The batch save preserves the in-range invariant when all saved items are
in range. -/
theorem save_batch_go_preserves (env : Store.SaveEnv) :
    ∀ (items : List NewsItem) (i : ℕ) (db : Store.DB),
      Store.scores_in_range db →
      (∀ x ∈ items, 0 ≤ x.importance_score ∧ x.importance_score ≤ 100) →
      Store.scores_in_range (Store.save_batch_go env i db items) := by
  intro items
  induction items with
  | nil => intro i db h _; exact h
  | cons x xs ih =>
    intro i db h hall
    refine ih (i + 1) _ ?_ (fun y hy => hall y (List.mem_cons_of_mem _ hy))
    unfold Store.save_news_item Store.upsert
    refine ⟨?_, h.2⟩
    intro r hr
    simp only [List.mem_append, List.mem_filter, List.mem_singleton] at hr
    rcases hr with ⟨hm, -⟩ | rfl
    · exact h.1 r hm
    · exact hall x (List.mem_cons_self ..)

/-- C3: every score producer clamps on ingress — the impact parser, both
single-item analysis paths, the importance scorer and the deep-analysis
score adjustment all land in `[0,100]` — and both store write paths
(`save_news_items_batch`, the analysis-result insert) preserve the
all-stored-scores-in-`[0,100]` invariant for such inputs. -/
theorem c3_scores_clamped_on_write :
    (∀ (jp : AIAnalyzer.JsonOracle) (nid resp : String) (r : AnalysisResult),
       AIAnalyzer.parse_analysis_response jp nid resp = .ok r →
       0 ≤ r.impact_score ∧ r.impact_score ≤ 100) ∧
    (∀ (cfg : AIAnalyzer.Config) (jp : AIAnalyzer.JsonOracle)
       (env : AIAnalyzer.SyncEnv) (item : NewsItem),
       0 ≤ (AIAnalyzer.analyze_news cfg jp env item).1.impact_score ∧
       (AIAnalyzer.analyze_news cfg jp env item).1.impact_score ≤ 100) ∧
    (∀ (jp : AIAnalyzer.JsonOracle) (env : AIAnalyzer.AsyncEnv) (i : ℕ)
       (item : NewsItem),
       0 ≤ (AIAnalyzer.async_analyze_news jp env i item).impact_score ∧
       (AIAnalyzer.async_analyze_news jp env i item).impact_score ≤ 100) ∧
    (∀ (penv : ImportanceAnalyzer.ParseEnv) (clientUp : Bool)
       (resp : Except String String) (item : NewsItem),
       0 ≤ (ImportanceAnalyzer.analyze_importance penv clientUp resp item).importance_score ∧
       (ImportanceAnalyzer.analyze_importance penv clientUp resp item).importance_score ≤ 100) ∧
    (∀ (item : NewsItem) (rep : String) (ev : DeepAnalyzer.EvidenceSummary),
       0 ≤ DeepAnalyzer.adjust_score_with_evidence item rep ev ∧
       DeepAnalyzer.adjust_score_with_evidence item rep ev ≤ 100) ∧
    (∀ (env : Store.SaveEnv) (db : Store.DB) (items : List NewsItem),
       Store.scores_in_range db →
       (∀ x ∈ items, 0 ≤ x.importance_score ∧ x.importance_score ≤ 100) →
       Store.scores_in_range (Store.save_news_items_batch env db items)) ∧
    (∀ (db : Store.DB) (res : AnalysisResult),
       Store.scores_in_range db → 0 ≤ res.impact_score → res.impact_score ≤ 100 →
       Store.scores_in_range (Store.save_analysis_result db res)) := by
  refine ⟨parse_analysis_response_bounds, analyze_news_bounds,
    async_analyze_news_bounds, analyze_importance_bounds, ?_, ?_, ?_⟩
  · intro item rep ev
    have h : DeepAnalyzer.adjust_score_with_evidence item rep ev =
        clampZ (item.importance_score +
          ((((0 +
            (if 7 ≤ ev.avg_score then 10
             else if 5 ≤ ev.avg_score then 6
             else if 3 ≤ ev.avg_score then 3 else 0) +
            (if 3 ≤ ev.evidence_count then 3
             else if 2 ≤ ev.evidence_count then 2 else 0)) +
            min (DeepAnalyzer.keywordCount DeepAnalyzer.high_impact_keywords
              (pyLower rep) * 2) 6) +
            min (DeepAnalyzer.keywordCount DeepAnalyzer.market_keywords
              (pyLower rep) * 1) 4) +
            min (DeepAnalyzer.keywordCount DeepAnalyzer.adjust_authority_keywords
              ev.summary * 1) 5)) := by
      unfold DeepAnalyzer.adjust_score_with_evidence
      rw [min_max_clamp_comm]
    rw [h]
    exact clampZ_bounds _
  · intro env db items h hall
    exact save_batch_go_preserves env items 0 db h hall
  · intro db res h h0 h100
    unfold Store.save_analysis_result
    refine ⟨h.1, ?_⟩
    intro a ha
    simp only [List.mem_append, List.mem_singleton] at ha
    rcases ha with hm | rfl
    · exact h.2 a hm
    · exact ⟨h0, h100⟩

/-- C3 witness: a concrete in-range item saved into the empty store keeps all
stored scores in range. -/
theorem c3_scores_clamped_on_write_witness :
    (0 ≤ item3.importance_score ∧ item3.importance_score ≤ 100) ∧
    Store.scores_in_range
      (Store.save_news_items_batch (saveEnvAt 1) Store.emptyDB [item3]) := by
  refine ⟨by decide, ?_⟩
  refine c3_scores_clamped_on_write.2.2.2.2.2.1 (saveEnvAt 1) Store.emptyDB [item3]
    ⟨?_, ?_⟩ ?_
  · intro r hr; cases hr
  · intro a ha; cases ha
  · intro x hx
    rw [List.mem_singleton] at hx
    subst hx
    exact ⟨by decide, by decide⟩

/-- C4 counterexample: saving the same `(title, url)` item twice through
`SaveBatch` one second apart yields two stored rows with that `(title, url)`
— the second insert is not a no-op and the store enforces no `(title, url)`
uniqueness. -/
theorem c4_store_dedup_counterexample :
    Store.pair_count db4 item4.title item4.url = 2 ∧
    db4.news_items.length = 2 ∧
    Store.save_news_items_batch (saveEnvAt 2) db1 [item4] ≠ db1 := by
  exact ⟨by decide, by decide, by decide⟩

/-- An upsert keeps at most one row per title when the title was absent or
the row does not carry it. -/
theorem upsert_title_bound (rows : List Store.NewsRow) (row : Store.NewsRow)
    (t : String)
    (h1 : (rows.filter (fun r => r.title = t)).length ≤ 1)
    (h2 : row.title = t → (rows.filter (fun r => r.title = t)).length = 0) :
    ((Store.upsert rows row).filter (fun r => r.title = t)).length ≤ 1 := by
  unfold Store.upsert
  rw [List.filter_append, List.length_append]
  have hsub : ((rows.filter (fun r => r.id ≠ row.id)).filter
      (fun r => r.title = t)).length ≤
      (rows.filter (fun r => r.title = t)).length :=
    List.Sublist.length_le (List.Sublist.filter _ (List.filter_sublist rows))
  by_cases hrt : row.title = t
  · have h0 := h2 hrt
    have hsingle : ([row].filter (fun r => r.title = t)).length ≤ 1 := by
      simp [List.filter_cons]
      split <;> simp
    omega
  · have hsingle : ([row].filter (fun r => r.title = t)).length = 0 := by
      simp [List.filter_cons, hrt]
    omega

/-- C4 amended: `(title, url)` dedup is enforced by the ingestion path, not
by the store — ingesting an item whose title and url already have a row is a
no-op, and single-item ingestion preserves the at-most-one-row-per-title
invariant; the store itself merely upserts by id. -/
theorem c4_dedup_enforced_by_ingest (md5 : String → String) (env : Store.SaveEnv)
    (db : Store.DB) (item : NewsItem) :
    ((∃ r ∈ db.news_items, r.title = item.title ∧ r.url = item.url) →
      Collector.ingest md5 env db [item] = db) ∧
    ((∀ t, Store.title_count db t ≤ 1) →
      ∀ t, Store.title_count (Collector.ingest md5 env db [item]) t ≤ 1) := by
  constructor
  · rintro ⟨r, hr, ht, hu⟩
    have hex : Store.check_news_exists db item.title item.url = true := by
      unfold Store.check_news_exists
      split
      · rw [List.any_eq_true]
        exact ⟨r, hr, by simp [ht]⟩
      · rw [List.any_eq_true]
        exact ⟨r, hr, by simp [ht]⟩
    unfold Collector.ingest Collector.deduplicate_news
    by_cases hb : pyStrip item.title = "" <;>
      simp [hb, hex, Store.save_news_items_batch, Store.save_batch_go]
  · intro hinv t
    by_cases hb : pyStrip item.title = ""
    · have hstep : Collector.ingest md5 env db [item] = db := by
        unfold Collector.ingest Collector.deduplicate_news
        simp [hb, Store.save_news_items_batch, Store.save_batch_go]
      rw [hstep]; exact hinv t
    · by_cases hex : Store.check_news_exists db item.title item.url
      · have hstep : Collector.ingest md5 env db [item] = db := by
          unfold Collector.ingest Collector.deduplicate_news
          simp [hb, hex, Store.save_news_items_batch, Store.save_batch_go]
        rw [hstep]; exact hinv t
      · have hex' : Store.check_news_exists db item.title item.url = false := by
          simpa using hex
        have hnone : ∀ r ∈ db.news_items, r.title ≠ item.title := by
          intro r hr hteq
          apply hex
          unfold Store.check_news_exists
          split
          · rw [List.any_eq_true]; exact ⟨r, hr, by simp [hteq]⟩
          · rw [List.any_eq_true]; exact ⟨r, hr, by simp [hteq]⟩
        have hstep : Collector.ingest md5 env db [item] =
            Store.save_news_item env 0 db item := by
          unfold Collector.ingest Collector.deduplicate_news
          simp [hb, hex', Store.save_news_items_batch, Store.save_batch_go]
        rw [hstep]
        unfold Store.save_news_item Store.title_count
        apply upsert_title_bound
        · exact hinv t
        · intro hrt
          have hti : item.title = t := by simpa [Store.toRow] using hrt
          rw [List.length_eq_zero]
          rw [List.filter_eq_nil_iff]
          intro r hr
          simp only [decide_eq_true_eq]
          rw [← hti]
          exact hnone r hr

/-- C4 amended witness: re-ingesting the already-stored item is a no-op. -/
theorem c4_dedup_enforced_by_ingest_witness :
    Collector.ingest id (saveEnvAt 2) db1 [item4] = db1 := by
  refine (c4_dedup_enforced_by_ingest id (saveEnvAt 2) db1 item4).1 ?_
  exact ⟨Store.toRow item4 (Store.genId (saveEnvAt 1) 0 item4), by decide⟩

/-- C10: a single deep-analyzer search is classified successful exactly when
`baidu_search_tool`'s text is non-empty, longer than 50 characters and free
of the substring `"搜索失败"`; consequently both a `"partial"` adapter output
(HTTP 200 page under the 10000-character success threshold) and the
link-only fallback (transport failure) count as successful evidence,
accumulate toward `evidence_threshold`, and make `search_success` true. -/
theorem c10_search_success_classification :
    (∀ (env : DeepAnalyzer.Env) (q : String),
      ((DeepAnalyzer.perform_single_search env q).2 = true) ↔
        (Baidu.baidu_search_tool env.baidu q 3 ≠ "" ∧
         substrMem "搜索失败" (Baidu.baidu_search_tool env.baidu q 3) = false ∧
         50 < (Baidu.baidu_search_tool env.baidu q 3).length)) ∧
    (DeepAnalyzer.perform_single_search deepPartialEnv "贵州茅台业绩").2 = true ∧
    (DeepAnalyzer.perform_single_search deepFailEnv "贵州茅台业绩").2 = true ∧
    (DeepAnalyzer.searchLoop {} deepPartialEnv
      (DeepAnalyzer.generate_search_queries {} deepPartialEnv item10) 0 0).2.1 = 2 ∧
    (DeepAnalyzer.analyze_news_deep {} deepPartialEnv item10).1.search_success = true ∧
    (DeepAnalyzer.analyze_news_deep {} deepFailEnv item10).1.search_success = true := by
  refine ⟨?_, by decide, by decide, by decide, by decide, by decide⟩
  intro env q
  simp only [DeepAnalyzer.perform_single_search]
  split_ifs with h
  · exact iff_of_true rfl ⟨h.1, by simpa [Bool.not_eq_true] using h.2.1, h.2.2⟩
  · refine iff_of_false (by simp) ?_
    intro hc
    exact h ⟨hc.1, by simp [hc.2.1], hc.2.2⟩

end AiNews
